import Mathlib

/-!
Verification of the chunk-and-commit segmentation controller of the STT
server (`src/python/stt_server.py`).

Shallow embedding conventions:
* Audio buffers are `List ℚ` (mono float32 samples, idealized as exact
  rationals).  Text is `List Char` (Python `str`).
* The acoustic transcription capability (`_transcribe_audio`, an external
  MLX model call) is an oracle parameter
  `transcribe : List ℚ → Except (List Char) (List Char)`;
  `Except.error` models a raised exception, `Except.ok` the returned text.
* The RMS measurement `np.sqrt(np.mean(chunk ** 2))` is a float computation
  whose exact value is irrational in general; it is abstracted as an oracle
  parameter `rmsOf : List ℚ → ℚ` giving the measured RMS of a window.  All
  decision logic downstream of the measurement (thresholds, state updates,
  control flow) is embedded exactly from the source.
* Wall-clock fields (`inference_time_ms`) are omitted; `audio_duration_ms`
  (`int(len(audio) / 16000 * 1000)`) is embedded as integer division.
* Python dict responses become the `SttResponse` type; an absent
  `skipped_low_volume` key is `false`.
-/

/-- `SAMPLE_RATE = 16000` (stt_server.py line 168). -/
def SAMPLE_RATE : ℕ := 16000

/-- `SILENCE_THRESHOLD = 0.015` (line 173). -/
def SILENCE_THRESHOLD : ℚ := 0.015

/-- `SILENCE_SAMPLES = int(0.35 * 16000) = 5600` (line 191). -/
def SILENCE_SAMPLES : ℕ := 5600

/-- `FORCE_COMMIT_SAMPLES = 8 * 16000 = 128000` (line 192). -/
def FORCE_COMMIT_SAMPLES : ℤ := 128000

/-- `MIN_CHUNK_SAMPLES = int(0.8 * 16000) = 12800` (line 193). -/
def MIN_CHUNK_SAMPLES : ℤ := 12800

/-- `MINIMUM_SPEECH_RMS = 0.025` (line 308, local to `is_low_volume_noise`). -/
def MINIMUM_SPEECH_RMS : ℚ := 0.025

/-- `MIN_REQUEST_SAMPLES`: the literal `4000` request floor (lines 504, 512). -/
def MIN_REQUEST_SAMPLES : ℕ := 4000

/-- Python `str.strip()`: remove leading and trailing whitespace. -/
def strip (s : List Char) : List Char :=
  ((s.dropWhile Char.isWhitespace).reverse.dropWhile Char.isWhitespace).reverse

/-- Python `s.endswith(' ')` (a single space character, line 362). -/
def endsWithSpace (s : List Char) : Bool :=
  s.getLast? = some ' '

/-- `s` is non-empty and its last character is whitespace (used to state the
reachable-state invariant on `committed_text`). -/
def endsWithWS (s : List Char) : Bool :=
  match s.getLast? with
  | some c => c.isWhitespace
  | none => false

/-- Python sequence slicing `l[k:]` for an arbitrary (possibly negative)
integer `k`, as numpy/list slicing behaves. -/
def pySliceFrom {α : Type} (l : List α) (k : ℤ) : List α :=
  if 0 ≤ k then l.drop k.toNat else l.drop (l.length - (-k).toNat)

/-- The session state of `ChunkTracker` (lines 229-252).  `pending_audio` is
kept (unused in the source, always `None`). -/
structure ChunkTracker where
  committed_text : List Char
  committed_samples : ℤ
  last_commit_sample : ℤ
  silence_sample_count : ℕ
  pending_audio : Option (List ℚ)
  speech_rms_history : List ℚ
  average_speech_rms : ℚ
deriving DecidableEq

/-- `ChunkTracker.__init__` (lines 229-252): all counters zero, empty
history, initial speech-RMS estimate `0.08`. -/
def ChunkTracker.init : ChunkTracker where
  committed_text := []
  committed_samples := 0
  last_commit_sample := 0
  silence_sample_count := 0
  pending_audio := none
  speech_rms_history := []
  average_speech_rms := 0.08

/-- `ChunkTracker.reset` (lines 254-264): zero the session fields, keep the
speech-RMS history across resets, trimming it to its last 50 entries only
when its length exceeds 100 (Python `self.speech_rms_history[-50:]`). -/
def ChunkTracker.reset (t : ChunkTracker) : ChunkTracker where
  committed_text := []
  committed_samples := 0
  last_commit_sample := 0
  silence_sample_count := 0
  pending_audio := none
  speech_rms_history :=
    if 100 < t.speech_rms_history.length then
      t.speech_rms_history.drop (t.speech_rms_history.length - 50)
    else t.speech_rms_history
  average_speech_rms := t.average_speech_rms

/-- `ChunkTracker.should_force_commit` (lines 266-269). -/
def ChunkTracker.should_force_commit (t : ChunkTracker) (current_sample : ℤ) : Bool :=
  decide (FORCE_COMMIT_SAMPLES ≤ current_sample - t.last_commit_sample)

/-- `ChunkTracker.detect_silence` (lines 271-287): returns the updated
tracker together with the returned pause flag.  `rmsOf audio_chunk` stands
for `np.sqrt(np.mean(audio_chunk ** 2))`. -/
def ChunkTracker.detect_silence (rmsOf : List ℚ → ℚ) (t : ChunkTracker)
    (audio_chunk : List ℚ) : ChunkTracker × Bool :=
  let rms := rmsOf audio_chunk
  let t' :=
    if rms < SILENCE_THRESHOLD then
      { t with silence_sample_count := t.silence_sample_count + audio_chunk.length }
    else
      let t0 := { t with silence_sample_count := 0 }
      if SILENCE_THRESHOLD * 2 < rms then
        let h0 := t0.speech_rms_history ++ [rms]
        let h1 := if 50 < h0.length then h0.tail else h0
        { t0 with speech_rms_history := h1,
                  average_speech_rms := h1.sum / (h1.length : ℚ) }
      else t0
  (t', decide (SILENCE_SAMPLES ≤ t'.silence_sample_count))

/-- `ChunkTracker.is_low_volume_noise` (lines 289-323). -/
def ChunkTracker.is_low_volume_noise (rmsOf : List ℚ → ℚ) (t : ChunkTracker)
    (audio_chunk : List ℚ) : Bool :=
  let rms := rmsOf audio_chunk
  if rms ≤ SILENCE_THRESHOLD then false
  else if rms < MINIMUM_SPEECH_RMS then true
  else if rms < t.average_speech_rms * 0.4 then true
  else false

/-- `ChunkTracker.should_commit` (lines 325-340). -/
def ChunkTracker.should_commit (t : ChunkTracker) (current_sample : ℤ)
    (has_pause : Bool) : Bool :=
  if current_sample - t.last_commit_sample < MIN_CHUNK_SAMPLES then false
  else has_pause || t.should_force_commit current_sample

/-- `ChunkTracker.commit` (lines 342-375). -/
def ChunkTracker.commit (t : ChunkTracker) (text : List Char)
    (sample_position : ℤ) : ChunkTracker :=
  let t1 :=
    if strip text ≠ [] then
      let ct :=
        if t.committed_text ≠ [] ∧ ¬ endsWithSpace t.committed_text then
          t.committed_text ++ [' ']
        else t.committed_text
      { t with committed_text := ct ++ strip text }
    else t
  { t1 with committed_samples := sample_position,
            last_commit_sample := sample_position,
            silence_sample_count := 0,
            pending_audio := none }

/-- The fields of a `"type": "success"` response of
`transcribe_buffer_chunked`; an absent `skipped_low_volume` key is `false`,
an absent `commit_reason` key is `none`.  `inference_time_ms` (wall clock)
is not modelled. -/
structure SttSuccess where
  committed_text : List Char
  partial_text : List Char
  is_final : Bool
  commit_sample : ℤ
  commit_reason : Option (List Char)
  audio_duration_ms : ℕ
  skipped_low_volume : Bool
deriving DecidableEq

/-- A response of `transcribe_buffer_chunked`: either a
`{"type": "error", ...}` dict or a `{"type": "success", ...}` dict. -/
inductive SttResponse : Type where
  | error (msg : List Char)
  | success (r : SttSuccess)
deriving DecidableEq

/-- The `"Audio too short"` error message (line 505). -/
def msgTooShort : List Char := "Audio too short".toList

/-- Lines 508-509: `full_audio[uncommitted_start:] if uncommitted_start <
len(full_audio) else full_audio`.  Note that when the committed boundary is
at or past the end of the buffer this is the WHOLE buffer, not the empty
tail. -/
def uncommittedOf (t : ChunkTracker) (full_audio : List ℚ) : List ℚ :=
  if t.committed_samples < (full_audio.length : ℤ) then
    pySliceFrom full_audio t.committed_samples
  else full_audio

/-- Lines 526-527: the trailing window `uncommitted_audio[-tail_samples:]`
with `tail_samples = min(SAMPLE_RATE, len(uncommitted_audio))`. -/
def tailWindow (u : List ℚ) : List ℚ :=
  u.drop (u.length - min SAMPLE_RATE u.length)

/-- `int(len(a) / 16000 * 1000)` (idealized as exact integer division). -/
def audioDurationMs (n : ℕ) : ℕ := n * 1000 / 16000

/-- `transcribe_buffer_chunked` (lines 470-585), as a pure state-passing
function.  Model loading and base64 decoding are external; `session_id` is
kept (unused, as in the source).  Returns the tracker after the call
together with the response dict. -/
def transcribe_buffer_chunked (rmsOf : List ℚ → ℚ)
    (transcribe : List ℚ → Except (List Char) (List Char))
    (t : ChunkTracker) (full_audio : List ℚ) (session_id : List Char)
    (total_samples : ℤ) : ChunkTracker × SttResponse :=
  if full_audio.length < MIN_REQUEST_SAMPLES then
    (t, SttResponse.error msgTooShort)
  else
    let uncommitted_audio := uncommittedOf t full_audio
    if uncommitted_audio.length < MIN_REQUEST_SAMPLES then
      (t, SttResponse.success
        { committed_text := t.committed_text
          partial_text := []
          is_final := false
          commit_sample := t.committed_samples
          commit_reason := none
          audio_duration_ms := audioDurationMs full_audio.length
          skipped_low_volume := false })
    else
      let tail_audio := tailWindow uncommitted_audio
      let d := ChunkTracker.detect_silence rmsOf t tail_audio
      let t1 := d.1
      let has_pause := d.2
      if ChunkTracker.is_low_volume_noise rmsOf t1 uncommitted_audio then
        (t1, SttResponse.success
          { committed_text := t1.committed_text
            partial_text := []
            is_final := false
            commit_sample := t1.committed_samples
            commit_reason := none
            audio_duration_ms := audioDurationMs full_audio.length
            skipped_low_volume := true })
      else
        match transcribe uncommitted_audio with
        | Except.error e => (t1, SttResponse.error e)
        | Except.ok partial_text =>
          if ChunkTracker.should_commit t1 total_samples has_pause = true ∧
              strip partial_text ≠ [] then
            let commit_reason := if has_pause then "pause".toList else "force".toList
            let t2 := ChunkTracker.commit t1 partial_text total_samples
            (t2, SttResponse.success
              { committed_text := t2.committed_text
                partial_text := []
                is_final := true
                commit_sample := total_samples
                commit_reason := some commit_reason
                audio_duration_ms := audioDurationMs uncommitted_audio.length
                skipped_low_volume := false })
          else
            (t1, SttResponse.success
              { committed_text := t1.committed_text
                partial_text := partial_text
                is_final := false
                commit_sample := t1.committed_samples
                commit_reason := none
                audio_duration_ms := audioDurationMs uncommitted_audio.length
                skipped_low_volume := false })

/-- One `transcribe_buffer_chunked` request: the cumulative audio buffer,
the session id, and the caller-reported total sample count. -/
structure SttCall where
  full_audio : List ℚ
  session_id : List Char
  total_samples : ℤ
deriving DecidableEq

/-- Apply one request to the tracker. -/
def stepCall (rmsOf : List ℚ → ℚ)
    (transcribe : List ℚ → Except (List Char) (List Char))
    (t : ChunkTracker) (c : SttCall) : ChunkTracker × SttResponse :=
  transcribe_buffer_chunked rmsOf transcribe t c.full_audio c.session_id c.total_samples

/-- Run a sequence of requests against one session, returning the final
tracker state. -/
def runCalls (rmsOf : List ℚ → ℚ)
    (transcribe : List ℚ → Except (List Char) (List Char))
    (t : ChunkTracker) : List SttCall → ChunkTracker
  | [] => t
  | c :: cs => runCalls rmsOf transcribe (stepCall rmsOf transcribe t c).1 cs

/-- The tracker states reachable by the server: the freshly constructed
tracker, any state reached by a `transcribe_buffer_chunked` request, and any
state reached by a `reset_session`. -/
inductive ReachableTracker : ChunkTracker → Prop where
  | start : ReachableTracker ChunkTracker.init
  | step (rmsOf : List ℚ → ℚ)
      (transcribe : List ℚ → Except (List Char) (List Char))
      (t : ChunkTracker) (full_audio : List ℚ) (session_id : List Char)
      (total_samples : ℤ) : ReachableTracker t →
      ReachableTracker
        (transcribe_buffer_chunked rmsOf transcribe t full_audio session_id
          total_samples).1
  | reset (t : ChunkTracker) : ReachableTracker t → ReachableTracker t.reset

/-- Modelled from the spec: the reference `should_force_commit` of §4.2, a
pure function of the two sample indices. -/
def ref_should_force_commit (current_sample last_commit_sample : ℤ) : Bool :=
  decide (128000 ≤ current_sample - last_commit_sample)

/-- Modelled from the spec: the reference `should_commit` of §4.2. -/
def ref_should_commit (current_sample last_commit_sample : ℤ)
    (has_pause : Bool) : Bool :=
  if current_sample - last_commit_sample < 12800 then false
  else has_pause || ref_should_force_commit current_sample last_commit_sample

/-! ## Branch characterization lemmas for `transcribe_buffer_chunked` -/

/-- Line 504-505: audio below the request floor fails with no mutation. -/
theorem tbc_too_short (rmsOf : List ℚ → ℚ)
    (tr : List ℚ → Except (List Char) (List Char))
    (t : ChunkTracker) (full_audio : List ℚ) (sid : List Char) (n : ℤ)
    (h : full_audio.length < MIN_REQUEST_SAMPLES) :
    transcribe_buffer_chunked rmsOf tr t full_audio sid n =
      (t, SttResponse.error msgTooShort) := by
  simp only [transcribe_buffer_chunked]
  rw [if_pos h]

/-- Lines 512-522: uncommitted tail below the floor returns the committed
state unchanged. -/
theorem tbc_small (rmsOf : List ℚ → ℚ)
    (tr : List ℚ → Except (List Char) (List Char))
    (t : ChunkTracker) (full_audio : List ℚ) (sid : List Char) (n : ℤ)
    (h1 : ¬ full_audio.length < MIN_REQUEST_SAMPLES)
    (h2 : (uncommittedOf t full_audio).length < MIN_REQUEST_SAMPLES) :
    transcribe_buffer_chunked rmsOf tr t full_audio sid n =
      (t, SttResponse.success
        { committed_text := t.committed_text
          partial_text := []
          is_final := false
          commit_sample := t.committed_samples
          commit_reason := none
          audio_duration_ms := audioDurationMs full_audio.length
          skipped_low_volume := false }) := by
  simp only [transcribe_buffer_chunked]
  rw [if_neg h1, if_pos h2]

/-- Lines 530-542: low-volume-noise skip (after `detect_silence` has run). -/
theorem tbc_noise (rmsOf : List ℚ → ℚ)
    (tr : List ℚ → Except (List Char) (List Char))
    (t : ChunkTracker) (full_audio : List ℚ) (sid : List Char) (n : ℤ)
    (h1 : ¬ full_audio.length < MIN_REQUEST_SAMPLES)
    (h2 : ¬ (uncommittedOf t full_audio).length < MIN_REQUEST_SAMPLES)
    (h3 : ChunkTracker.is_low_volume_noise rmsOf
        (ChunkTracker.detect_silence rmsOf t (tailWindow (uncommittedOf t full_audio))).1
        (uncommittedOf t full_audio) = true) :
    transcribe_buffer_chunked rmsOf tr t full_audio sid n =
      ((ChunkTracker.detect_silence rmsOf t (tailWindow (uncommittedOf t full_audio))).1,
       SttResponse.success
        { committed_text := (ChunkTracker.detect_silence rmsOf t
            (tailWindow (uncommittedOf t full_audio))).1.committed_text
          partial_text := []
          is_final := false
          commit_sample := (ChunkTracker.detect_silence rmsOf t
            (tailWindow (uncommittedOf t full_audio))).1.committed_samples
          commit_reason := none
          audio_duration_ms := audioDurationMs full_audio.length
          skipped_low_volume := true }) := by
  simp only [transcribe_buffer_chunked]
  rw [if_neg h1, if_neg h2, if_pos h3]

/-- Lines 582-585: an exception from the transcription capability becomes an
error result; the tracker stays at the post-`detect_silence` state. -/
theorem tbc_err (rmsOf : List ℚ → ℚ)
    (tr : List ℚ → Except (List Char) (List Char))
    (t : ChunkTracker) (full_audio : List ℚ) (sid : List Char) (n : ℤ)
    (e : List Char)
    (h1 : ¬ full_audio.length < MIN_REQUEST_SAMPLES)
    (h2 : ¬ (uncommittedOf t full_audio).length < MIN_REQUEST_SAMPLES)
    (h3 : ChunkTracker.is_low_volume_noise rmsOf
        (ChunkTracker.detect_silence rmsOf t (tailWindow (uncommittedOf t full_audio))).1
        (uncommittedOf t full_audio) = false)
    (h4 : tr (uncommittedOf t full_audio) = Except.error e) :
    transcribe_buffer_chunked rmsOf tr t full_audio sid n =
      ((ChunkTracker.detect_silence rmsOf t (tailWindow (uncommittedOf t full_audio))).1,
       SttResponse.error e) := by
  simp only [transcribe_buffer_chunked]
  rw [if_neg h1, if_neg h2, if_neg (by simp [h3]), h4]

/-- Lines 549-569: commit branch. -/
theorem tbc_commit (rmsOf : List ℚ → ℚ)
    (tr : List ℚ → Except (List Char) (List Char))
    (t : ChunkTracker) (full_audio : List ℚ) (sid : List Char) (n : ℤ)
    (p : List Char)
    (h1 : ¬ full_audio.length < MIN_REQUEST_SAMPLES)
    (h2 : ¬ (uncommittedOf t full_audio).length < MIN_REQUEST_SAMPLES)
    (h3 : ChunkTracker.is_low_volume_noise rmsOf
        (ChunkTracker.detect_silence rmsOf t (tailWindow (uncommittedOf t full_audio))).1
        (uncommittedOf t full_audio) = false)
    (h4 : tr (uncommittedOf t full_audio) = Except.ok p)
    (h5 : ChunkTracker.should_commit
        (ChunkTracker.detect_silence rmsOf t (tailWindow (uncommittedOf t full_audio))).1 n
        (ChunkTracker.detect_silence rmsOf t (tailWindow (uncommittedOf t full_audio))).2 = true)
    (h6 : strip p ≠ []) :
    transcribe_buffer_chunked rmsOf tr t full_audio sid n =
      (ChunkTracker.commit
         (ChunkTracker.detect_silence rmsOf t (tailWindow (uncommittedOf t full_audio))).1
         p n,
       SttResponse.success
        { committed_text := (ChunkTracker.commit
            (ChunkTracker.detect_silence rmsOf t (tailWindow (uncommittedOf t full_audio))).1
            p n).committed_text
          partial_text := []
          is_final := true
          commit_sample := n
          commit_reason := some
            (if (ChunkTracker.detect_silence rmsOf t
                  (tailWindow (uncommittedOf t full_audio))).2
             then "pause".toList else "force".toList)
          audio_duration_ms := audioDurationMs (uncommittedOf t full_audio).length
          skipped_low_volume := false }) := by
  simp only [transcribe_buffer_chunked]
  rw [if_neg h1, if_neg h2, if_neg (by simp [h3]), h4]
  simp only [if_pos (And.intro h5 h6)]

/-- Lines 570-580: partial (no-commit) branch. -/
theorem tbc_no_commit (rmsOf : List ℚ → ℚ)
    (tr : List ℚ → Except (List Char) (List Char))
    (t : ChunkTracker) (full_audio : List ℚ) (sid : List Char) (n : ℤ)
    (p : List Char)
    (h1 : ¬ full_audio.length < MIN_REQUEST_SAMPLES)
    (h2 : ¬ (uncommittedOf t full_audio).length < MIN_REQUEST_SAMPLES)
    (h3 : ChunkTracker.is_low_volume_noise rmsOf
        (ChunkTracker.detect_silence rmsOf t (tailWindow (uncommittedOf t full_audio))).1
        (uncommittedOf t full_audio) = false)
    (h4 : tr (uncommittedOf t full_audio) = Except.ok p)
    (h5 : ¬ (ChunkTracker.should_commit
        (ChunkTracker.detect_silence rmsOf t (tailWindow (uncommittedOf t full_audio))).1 n
        (ChunkTracker.detect_silence rmsOf t (tailWindow (uncommittedOf t full_audio))).2 = true ∧
        strip p ≠ [])) :
    transcribe_buffer_chunked rmsOf tr t full_audio sid n =
      ((ChunkTracker.detect_silence rmsOf t (tailWindow (uncommittedOf t full_audio))).1,
       SttResponse.success
        { committed_text := (ChunkTracker.detect_silence rmsOf t
            (tailWindow (uncommittedOf t full_audio))).1.committed_text
          partial_text := p
          is_final := false
          commit_sample := (ChunkTracker.detect_silence rmsOf t
            (tailWindow (uncommittedOf t full_audio))).1.committed_samples
          commit_reason := none
          audio_duration_ms := audioDurationMs (uncommittedOf t full_audio).length
          skipped_low_volume := false }) := by
  simp only [transcribe_buffer_chunked]
  rw [if_neg h1, if_neg h2, if_neg (by simp [h3]), h4]
  simp only [if_neg h5]

/-! ## Characterization of `detect_silence` and `commit` -/

/-- Silent window (lines 276-277): the whole window's length is added to the
silence run; nothing else changes. -/
theorem detect_silence_silent (rmsOf : List ℚ → ℚ) (t : ChunkTracker)
    (c : List ℚ) (h : rmsOf c < SILENCE_THRESHOLD) :
    ChunkTracker.detect_silence rmsOf t c =
      ({ t with silence_sample_count := t.silence_sample_count + c.length },
       decide (SILENCE_SAMPLES ≤ t.silence_sample_count + c.length)) := by
  simp only [ChunkTracker.detect_silence]
  rw [if_pos h]

/-- Clear-speech window (lines 278-285): silence run resets, the RMS is
appended to the bounded history and the average is recomputed. -/
theorem detect_silence_speech (rmsOf : List ℚ → ℚ) (t : ChunkTracker)
    (c : List ℚ) (h1 : ¬ rmsOf c < SILENCE_THRESHOLD)
    (h2 : SILENCE_THRESHOLD * 2 < rmsOf c) :
    ChunkTracker.detect_silence rmsOf t c =
      ({ t with silence_sample_count := 0,
                speech_rms_history :=
                  if 50 < (t.speech_rms_history ++ [rmsOf c]).length then
                    (t.speech_rms_history ++ [rmsOf c]).tail
                  else t.speech_rms_history ++ [rmsOf c],
                average_speech_rms :=
                  (if 50 < (t.speech_rms_history ++ [rmsOf c]).length then
                    (t.speech_rms_history ++ [rmsOf c]).tail
                  else t.speech_rms_history ++ [rmsOf c]).sum /
                  ((if 50 < (t.speech_rms_history ++ [rmsOf c]).length then
                    (t.speech_rms_history ++ [rmsOf c]).tail
                  else t.speech_rms_history ++ [rmsOf c]).length : ℚ) },
       false) := by
  simp only [ChunkTracker.detect_silence]
  rw [if_neg h1, if_pos h2]
  simp [SILENCE_SAMPLES]

/-- Non-silent borderline window (`SILENCE_THRESHOLD < rms ≤ 2 *
SILENCE_THRESHOLD`): only the silence run resets. -/
theorem detect_silence_mid (rmsOf : List ℚ → ℚ) (t : ChunkTracker)
    (c : List ℚ) (h1 : ¬ rmsOf c < SILENCE_THRESHOLD)
    (h2 : ¬ SILENCE_THRESHOLD * 2 < rmsOf c) :
    ChunkTracker.detect_silence rmsOf t c =
      ({ t with silence_sample_count := 0 }, false) := by
  simp only [ChunkTracker.detect_silence]
  rw [if_neg h1, if_neg h2]
  simp [SILENCE_SAMPLES]

@[simp] theorem detect_silence_committed_text (rmsOf : List ℚ → ℚ)
    (t : ChunkTracker) (c : List ℚ) :
    (ChunkTracker.detect_silence rmsOf t c).1.committed_text = t.committed_text := by
  simp only [ChunkTracker.detect_silence]
  split <;> first
  | rfl
  | (split <;> rfl)

@[simp] theorem detect_silence_committed_samples (rmsOf : List ℚ → ℚ)
    (t : ChunkTracker) (c : List ℚ) :
    (ChunkTracker.detect_silence rmsOf t c).1.committed_samples = t.committed_samples := by
  simp only [ChunkTracker.detect_silence]
  split <;> first
  | rfl
  | (split <;> rfl)

@[simp] theorem detect_silence_last_commit (rmsOf : List ℚ → ℚ)
    (t : ChunkTracker) (c : List ℚ) :
    (ChunkTracker.detect_silence rmsOf t c).1.last_commit_sample = t.last_commit_sample := by
  simp only [ChunkTracker.detect_silence]
  split <;> first
  | rfl
  | (split <;> rfl)

/-- The returned pause flag is exactly "the updated silence run has reached
`SILENCE_SAMPLES`". -/
theorem detect_silence_flag (rmsOf : List ℚ → ℚ) (t : ChunkTracker) (c : List ℚ) :
    (ChunkTracker.detect_silence rmsOf t c).2 = true ↔
      SILENCE_SAMPLES ≤ (ChunkTracker.detect_silence rmsOf t c).1.silence_sample_count := by
  simp only [ChunkTracker.detect_silence]
  simp

@[simp] theorem commit_committed_samples (t : ChunkTracker) (x : List Char) (p : ℤ) :
    (ChunkTracker.commit t x p).committed_samples = p := by
  simp only [ChunkTracker.commit]

@[simp] theorem commit_last_commit (t : ChunkTracker) (x : List Char) (p : ℤ) :
    (ChunkTracker.commit t x p).last_commit_sample = p := by
  simp only [ChunkTracker.commit]

@[simp] theorem commit_silence (t : ChunkTracker) (x : List Char) (p : ℤ) :
    (ChunkTracker.commit t x p).silence_sample_count = 0 := by
  simp only [ChunkTracker.commit]

@[simp] theorem commit_history (t : ChunkTracker) (x : List Char) (p : ℤ) :
    (ChunkTracker.commit t x p).speech_rms_history = t.speech_rms_history := by
  simp only [ChunkTracker.commit]
  split <;> rfl

@[simp] theorem commit_average (t : ChunkTracker) (x : List Char) (p : ℤ) :
    (ChunkTracker.commit t x p).average_speech_rms = t.average_speech_rms := by
  simp only [ChunkTracker.commit]
  split <;> rfl

/-- `commit` only ever extends the committed text. -/
theorem commit_text_extends (t : ChunkTracker) (x : List Char) (p : ℤ) :
    t.committed_text <+: (ChunkTracker.commit t x p).committed_text := by
  simp only [ChunkTracker.commit]
  split
  · split
    · rw [List.append_assoc]
      exact List.prefix_append _ _
    · exact List.prefix_append _ _
  · exact List.prefix_rfl

/-- A positive `should_commit` implies the minimum-chunk floor was met. -/
theorem should_commit_floor (t : ChunkTracker) (n : ℤ) (hp : Bool)
    (h : ChunkTracker.should_commit t n hp = true) :
    MIN_CHUNK_SAMPLES ≤ n - t.last_commit_sample := by
  by_contra hc
  rw [ChunkTracker.should_commit, if_pos (by omega)] at h
  exact Bool.false_ne_true h

/-! ## Session-level invariants -/

/-- One request never rewinds the committed state: `committed_samples` does
not decrease, `committed_text` is only extended, and `last_commit_sample =
committed_samples` is preserved (it holds in every reachable state, both
fields being set together by `__init__`, `reset` and `commit`). -/
theorem tbc_mono (rmsOf : List ℚ → ℚ)
    (tr : List ℚ → Except (List Char) (List Char))
    (t : ChunkTracker) (full_audio : List ℚ) (sid : List Char) (n : ℤ)
    (h : t.last_commit_sample = t.committed_samples) :
    t.committed_samples ≤
      (transcribe_buffer_chunked rmsOf tr t full_audio sid n).1.committed_samples ∧
    t.committed_text <+:
      (transcribe_buffer_chunked rmsOf tr t full_audio sid n).1.committed_text ∧
    (transcribe_buffer_chunked rmsOf tr t full_audio sid n).1.last_commit_sample =
      (transcribe_buffer_chunked rmsOf tr t full_audio sid n).1.committed_samples := by
  by_cases h1 : full_audio.length < MIN_REQUEST_SAMPLES
  · rw [tbc_too_short rmsOf tr t full_audio sid n h1]
    exact ⟨le_rfl, List.prefix_rfl, h⟩
  by_cases h2 : (uncommittedOf t full_audio).length < MIN_REQUEST_SAMPLES
  · rw [tbc_small rmsOf tr t full_audio sid n h1 h2]
    exact ⟨le_rfl, List.prefix_rfl, h⟩
  by_cases h3 : ChunkTracker.is_low_volume_noise rmsOf
      (ChunkTracker.detect_silence rmsOf t (tailWindow (uncommittedOf t full_audio))).1
      (uncommittedOf t full_audio) = true
  · rw [tbc_noise rmsOf tr t full_audio sid n h1 h2 h3]
    refine ⟨?_, ?_, ?_⟩ <;> simp [h]
  rw [Bool.not_eq_true] at h3
  rcases htr : tr (uncommittedOf t full_audio) with e | p
  · rw [tbc_err rmsOf tr t full_audio sid n e h1 h2 h3 htr]
    refine ⟨?_, ?_, ?_⟩ <;> simp [h]
  by_cases h5 : ChunkTracker.should_commit
      (ChunkTracker.detect_silence rmsOf t (tailWindow (uncommittedOf t full_audio))).1 n
      (ChunkTracker.detect_silence rmsOf t (tailWindow (uncommittedOf t full_audio))).2 = true ∧
      strip p ≠ []
  · rw [tbc_commit rmsOf tr t full_audio sid n p h1 h2 h3 htr h5.1 h5.2]
    have floor := should_commit_floor _ _ _ h5.1
    rw [detect_silence_last_commit, h] at floor
    refine ⟨?_, ?_, ?_⟩
    · rw [commit_committed_samples]
      have hm : MIN_CHUNK_SAMPLES = 12800 := rfl
      omega
    · have := commit_text_extends
        (ChunkTracker.detect_silence rmsOf t (tailWindow (uncommittedOf t full_audio))).1 p n
      rwa [detect_silence_committed_text] at this
    · rw [commit_committed_samples, commit_last_commit]
  · rw [tbc_no_commit rmsOf tr t full_audio sid n p h1 h2 h3 htr h5]
    refine ⟨?_, ?_, ?_⟩ <;> simp [h]

/-- The `last_commit_sample = committed_samples` invariant along any run. -/
theorem runCalls_inv (rmsOf : List ℚ → ℚ)
    (tr : List ℚ → Except (List Char) (List Char))
    (cs : List SttCall) (t : ChunkTracker)
    (h : t.last_commit_sample = t.committed_samples) :
    (runCalls rmsOf tr t cs).last_commit_sample =
      (runCalls rmsOf tr t cs).committed_samples := by
  induction cs generalizing t with
  | nil => exact h
  | cons c cs ih =>
    exact ih _ (tbc_mono rmsOf tr t c.full_audio c.session_id c.total_samples h).2.2

/-- `detect_silence` keeps the speech-RMS history within its capacity. -/
theorem detect_silence_history_len (rmsOf : List ℚ → ℚ) (t : ChunkTracker)
    (c : List ℚ) (h : t.speech_rms_history.length ≤ 50) :
    (ChunkTracker.detect_silence rmsOf t c).1.speech_rms_history.length ≤ 50 := by
  simp only [ChunkTracker.detect_silence]
  split
  · simpa using h
  split
  · show (if 50 < (t.speech_rms_history ++ [rmsOf c]).length then
        (t.speech_rms_history ++ [rmsOf c]).tail
      else t.speech_rms_history ++ [rmsOf c]).length ≤ 50
    split
    · next hlt =>
      simp only [List.length_tail, List.length_append, List.length_cons,
        List.length_nil] at hlt ⊢
      omega
    · next hlt =>
      simp only [List.length_append, List.length_cons, List.length_nil] at hlt ⊢
      omega
  · simpa using h

/-- A request keeps the speech-RMS history within its capacity. -/
theorem tbc_history_len (rmsOf : List ℚ → ℚ)
    (tr : List ℚ → Except (List Char) (List Char))
    (t : ChunkTracker) (full_audio : List ℚ) (sid : List Char) (n : ℤ)
    (h : t.speech_rms_history.length ≤ 50) :
    (transcribe_buffer_chunked rmsOf tr t full_audio sid n).1.speech_rms_history.length
      ≤ 50 := by
  by_cases h1 : full_audio.length < MIN_REQUEST_SAMPLES
  · rw [tbc_too_short rmsOf tr t full_audio sid n h1]
    exact h
  by_cases h2 : (uncommittedOf t full_audio).length < MIN_REQUEST_SAMPLES
  · rw [tbc_small rmsOf tr t full_audio sid n h1 h2]
    exact h
  by_cases h3 : ChunkTracker.is_low_volume_noise rmsOf
      (ChunkTracker.detect_silence rmsOf t (tailWindow (uncommittedOf t full_audio))).1
      (uncommittedOf t full_audio) = true
  · rw [tbc_noise rmsOf tr t full_audio sid n h1 h2 h3]
    exact detect_silence_history_len rmsOf t _ h
  rw [Bool.not_eq_true] at h3
  rcases htr : tr (uncommittedOf t full_audio) with e | p
  · rw [tbc_err rmsOf tr t full_audio sid n e h1 h2 h3 htr]
    exact detect_silence_history_len rmsOf t _ h
  by_cases h5 : ChunkTracker.should_commit
      (ChunkTracker.detect_silence rmsOf t (tailWindow (uncommittedOf t full_audio))).1 n
      (ChunkTracker.detect_silence rmsOf t (tailWindow (uncommittedOf t full_audio))).2 = true ∧
      strip p ≠ []
  · rw [tbc_commit rmsOf tr t full_audio sid n p h1 h2 h3 htr h5.1 h5.2]
    show (ChunkTracker.commit _ p n).speech_rms_history.length ≤ 50
    rw [commit_history]
    exact detect_silence_history_len rmsOf t _ h
  · rw [tbc_no_commit rmsOf tr t full_audio sid n p h1 h2 h3 htr h5]
    exact detect_silence_history_len rmsOf t _ h

/-- When the history is within capacity, the defensive trim in `reset` does
nothing. -/
theorem reset_history_of_len (t : ChunkTracker)
    (h : t.speech_rms_history.length ≤ 50) :
    t.reset.speech_rms_history = t.speech_rms_history := by
  simp only [ChunkTracker.reset]
  rw [if_neg (by omega)]

/-! ## Evaluation helpers for concrete runs -/

theorem uncommittedOf_zero (t : ChunkTracker) (l : List ℚ)
    (h : t.committed_samples = 0) : uncommittedOf t l = l := by
  simp only [uncommittedOf, h]
  split
  · simp [pySliceFrom]
  · rfl

theorem uncommittedOf_ge (t : ChunkTracker) (l : List ℚ)
    (h : (l.length : ℤ) ≤ t.committed_samples) : uncommittedOf t l = l := by
  simp only [uncommittedOf]
  rw [if_neg (by omega)]

theorem tailWindow_of_le (u : List ℚ) (h : u.length ≤ SAMPLE_RATE) :
    tailWindow u = u := by
  simp only [tailWindow]
  rw [min_eq_right h, Nat.sub_self, List.drop_zero]

/-! ## Concrete oracles and inputs for witnesses and counterexamples -/

def strHello : List Char := "hello".toList

def strBoom : List Char := "boom".toList

def strBlank : List Char := " ".toList

/-- A constant measured RMS of 0.01 (below the silence threshold). -/
def rmsSilent : List ℚ → ℚ := fun _ => 0.01

/-- A constant measured RMS of 0.1 (clear speech). -/
def rmsLoud : List ℚ → ℚ := fun _ => 0.1

def trHello : List ℚ → Except (List Char) (List Char) := fun _ => Except.ok strHello

def trBoom : List ℚ → Except (List Char) (List Char) := fun _ => Except.error strBoom

def trBlank : List ℚ → Except (List Char) (List Char) := fun _ => Except.ok strBlank

def trEmpty : List ℚ → Except (List Char) (List Char) := fun _ => Except.ok []

def rmsZero : List ℚ → ℚ := fun _ => 0

def audio4000 : List ℚ := List.replicate 4000 0

def audio4001 : List ℚ := List.replicate 4001 0

theorem audio4000_length : audio4000.length = 4000 := by
  simp only [audio4000, List.length_replicate]

theorem audio4001_length : audio4001.length = 4001 := by
  simp only [audio4001, List.length_replicate]

/-! ## Claim theorems -/

/-- Claim C1: along any run of `transcribe_buffer_chunked` requests on one
session (with non-decreasing `total_samples`), `committed_samples` never
decreases from one call to the next, and the committed text before a call is
a prefix of the committed text after it. -/
theorem C1_committed_monotone (rmsOf : List ℚ → ℚ)
    (transcribe : List ℚ → Except (List Char) (List Char))
    (calls : List SttCall) (c : SttCall)
    (hmono : List.Chain' (fun a b => a.total_samples ≤ b.total_samples)
      (calls ++ [c])) :
    (runCalls rmsOf transcribe ChunkTracker.init calls).committed_samples ≤
      (stepCall rmsOf transcribe
        (runCalls rmsOf transcribe ChunkTracker.init calls) c).1.committed_samples ∧
    (runCalls rmsOf transcribe ChunkTracker.init calls).committed_text <+:
      (stepCall rmsOf transcribe
        (runCalls rmsOf transcribe ChunkTracker.init calls) c).1.committed_text := by
  have hinv := runCalls_inv rmsOf transcribe calls ChunkTracker.init rfl
  have hm := tbc_mono rmsOf transcribe _ c.full_audio c.session_id c.total_samples hinv
  exact ⟨hm.1, hm.2.1⟩

theorem C1_committed_monotone_witness :
    List.Chain' (fun (a b : SttCall) => a.total_samples ≤ b.total_samples)
      ([] ++ [(⟨audio4000, [], 4000⟩ : SttCall)]) ∧
    ((runCalls rmsZero trEmpty ChunkTracker.init []).committed_samples ≤
      (stepCall rmsZero trEmpty (runCalls rmsZero trEmpty ChunkTracker.init [])
        ⟨audio4000, [], 4000⟩).1.committed_samples ∧
    (runCalls rmsZero trEmpty ChunkTracker.init []).committed_text <+:
      (stepCall rmsZero trEmpty (runCalls rmsZero trEmpty ChunkTracker.init [])
        ⟨audio4000, [], 4000⟩).1.committed_text) :=
  ⟨List.chain'_singleton _,
   C1_committed_monotone rmsZero trEmpty [] ⟨audio4000, [], 4000⟩
     (List.chain'_singleton _)⟩

/-- Claim C5: the source Commit Policy coincides with the spec's reference
definition: `should_force_commit` is true iff at least 128,000 samples (8 s)
elapsed since the last commit, and `should_commit` is false below 12,800
elapsed samples (0.8 s) and otherwise true iff a pause was detected or the
force condition holds. -/
theorem C5_commit_policy (t : ChunkTracker) (current_sample : ℤ) (has_pause : Bool) :
    t.should_force_commit current_sample =
      ref_should_force_commit current_sample t.last_commit_sample ∧
    t.should_commit current_sample has_pause =
      ref_should_commit current_sample t.last_commit_sample has_pause ∧
    FORCE_COMMIT_SAMPLES = 128000 ∧ MIN_CHUNK_SAMPLES = 12800 := by
  exact ⟨rfl, rfl, rfl, rfl⟩

/-- Claim C10: in every reachable tracker state the speech-RMS history holds
at most 50 entries, so the defensive trim in `reset` (which would fire only
above 100 entries) never fires: `reset` preserves the history exactly. -/
theorem C10_history_capacity (t : ChunkTracker) (h : ReachableTracker t) :
    t.speech_rms_history.length ≤ 50 ∧
    t.reset.speech_rms_history = t.speech_rms_history := by
  have hb : t.speech_rms_history.length ≤ 50 := by
    induction h with
    | start => simp [ChunkTracker.init]
    | step rmsOf transcribe t full_audio session_id total_samples ht ih =>
      exact tbc_history_len rmsOf transcribe t full_audio session_id total_samples ih
    | reset t ht ih =>
      rw [reset_history_of_len t ih]
      exact ih
  exact ⟨hb, reset_history_of_len t hb⟩

theorem C10_history_capacity_witness :
    ReachableTracker ChunkTracker.init ∧
    (ChunkTracker.init.speech_rms_history.length ≤ 50 ∧
     ChunkTracker.init.reset.speech_rms_history =
       ChunkTracker.init.speech_rms_history) :=
  ⟨ReachableTracker.start, C10_history_capacity ChunkTracker.init ReachableTracker.start⟩

/-- A string whose last character is not whitespace does not end with the
space character. -/
theorem endsWithSpace_of_ws (s : List Char) (h : endsWithWS s = false) :
    endsWithSpace s = false := by
  unfold endsWithSpace
  unfold endsWithWS at h
  cases hgl : s.getLast? with
  | none => simp
  | some c =>
    rw [hgl] at h
    simp only [decide_eq_false_iff_not]
    intro hc
    rw [Option.some_inj] at hc
    rw [hc] at h
    exact absurd h (by decide)

/-- Claim C9: when the text is non-blank after trimming, `commit` appends
the trimmed text to `committed_text` with a separating space exactly when
the existing text is non-empty (the tracker's committed text never ends in
whitespace, which the hypothesis records), sets `committed_samples =
last_commit_sample = sample_position`, and zeroes the silence run. -/
theorem C9_commit_appends (t : ChunkTracker) (text : List Char)
    (sample_position : ℤ)
    (hne : strip text ≠ [])
    (hws : endsWithWS t.committed_text = false) :
    (ChunkTracker.commit t text sample_position).committed_text =
      (if t.committed_text = [] then strip text
       else t.committed_text ++ ' ' :: strip text) ∧
    (ChunkTracker.commit t text sample_position).committed_samples =
      sample_position ∧
    (ChunkTracker.commit t text sample_position).last_commit_sample =
      sample_position ∧
    (ChunkTracker.commit t text sample_position).silence_sample_count = 0 := by
  refine ⟨?_, commit_committed_samples t text sample_position,
    commit_last_commit t text sample_position,
    commit_silence t text sample_position⟩
  simp only [ChunkTracker.commit]
  rw [if_pos hne]
  by_cases hct : t.committed_text = []
  · rw [if_pos hct, if_neg (by simp [hct])]
    simp [hct]
  · rw [if_neg hct,
      if_pos ⟨hct, by rw [endsWithSpace_of_ws t.committed_text hws]; exact Bool.false_ne_true⟩]
    simp

theorem C9_commit_appends_witness :
    (strip strHello ≠ [] ∧ endsWithWS ChunkTracker.init.committed_text = false) ∧
    ((ChunkTracker.commit ChunkTracker.init strHello 7).committed_text =
      (if ChunkTracker.init.committed_text = [] then strip strHello
       else ChunkTracker.init.committed_text ++ ' ' :: strip strHello) ∧
    (ChunkTracker.commit ChunkTracker.init strHello 7).committed_samples = 7 ∧
    (ChunkTracker.commit ChunkTracker.init strHello 7).last_commit_sample = 7 ∧
    (ChunkTracker.commit ChunkTracker.init strHello 7).silence_sample_count = 0) :=
  ⟨⟨by decide, by decide⟩,
   C9_commit_appends ChunkTracker.init strHello 7 (by decide) (by decide)⟩

/-- Past the length gates, a request's final speech-RMS history and average
are exactly those produced by `detect_silence` on the trailing window (no
later step touches them). -/
theorem tbc_calib_eq (rmsOf : List ℚ → ℚ)
    (tr : List ℚ → Except (List Char) (List Char))
    (t : ChunkTracker) (full_audio : List ℚ) (sid : List Char) (n : ℤ)
    (h1 : ¬ full_audio.length < MIN_REQUEST_SAMPLES)
    (h2 : ¬ (uncommittedOf t full_audio).length < MIN_REQUEST_SAMPLES) :
    (transcribe_buffer_chunked rmsOf tr t full_audio sid n).1.speech_rms_history =
      (ChunkTracker.detect_silence rmsOf t
        (tailWindow (uncommittedOf t full_audio))).1.speech_rms_history ∧
    (transcribe_buffer_chunked rmsOf tr t full_audio sid n).1.average_speech_rms =
      (ChunkTracker.detect_silence rmsOf t
        (tailWindow (uncommittedOf t full_audio))).1.average_speech_rms := by
  by_cases h3 : ChunkTracker.is_low_volume_noise rmsOf
      (ChunkTracker.detect_silence rmsOf t (tailWindow (uncommittedOf t full_audio))).1
      (uncommittedOf t full_audio) = true
  · rw [tbc_noise rmsOf tr t full_audio sid n h1 h2 h3]
    exact ⟨rfl, rfl⟩
  rw [Bool.not_eq_true] at h3
  rcases htr : tr (uncommittedOf t full_audio) with e | p
  · rw [tbc_err rmsOf tr t full_audio sid n e h1 h2 h3 htr]
    exact ⟨rfl, rfl⟩
  by_cases h5 : ChunkTracker.should_commit
      (ChunkTracker.detect_silence rmsOf t (tailWindow (uncommittedOf t full_audio))).1 n
      (ChunkTracker.detect_silence rmsOf t (tailWindow (uncommittedOf t full_audio))).2 = true ∧
      strip p ≠ []
  · rw [tbc_commit rmsOf tr t full_audio sid n p h1 h2 h3 htr h5.1 h5.2]
    exact ⟨commit_history _ p n, commit_average _ p n⟩
  · rw [tbc_no_commit rmsOf tr t full_audio sid n p h1 h2 h3 htr h5]
    exact ⟨rfl, rfl⟩

/-- Claim C7: on every request that reaches pause detection, the evaluated
window is the trailing `min(16000, len(uncommitted))` samples of the
uncommitted audio; a silent window (rms < 0.015) adds the whole window's
length to the silence run, a non-silent window zeroes it and, when its rms
exceeds `2 × SILENCE_THRESHOLD`, appends the rms to the capacity-50 history
and recomputes the average as the arithmetic mean; a pause is declared
exactly when the updated silence run has reached `SILENCE_SAMPLES` (5600);
and the request's final calibration state is the one this step produced. -/
theorem C7_pause_detection (rmsOf : List ℚ → ℚ)
    (transcribe : List ℚ → Except (List Char) (List Char))
    (t : ChunkTracker) (full_audio : List ℚ) (sid : List Char) (n : ℤ)
    (h1 : ¬ full_audio.length < MIN_REQUEST_SAMPLES)
    (h2 : ¬ (uncommittedOf t full_audio).length < MIN_REQUEST_SAMPLES) :
    (tailWindow (uncommittedOf t full_audio)).length =
      min 16000 (uncommittedOf t full_audio).length ∧
    tailWindow (uncommittedOf t full_audio) <:+ uncommittedOf t full_audio ∧
    (rmsOf (tailWindow (uncommittedOf t full_audio)) < SILENCE_THRESHOLD →
      (ChunkTracker.detect_silence rmsOf t (tailWindow (uncommittedOf t full_audio))).1 =
        { t with silence_sample_count := t.silence_sample_count +
            (tailWindow (uncommittedOf t full_audio)).length }) ∧
    (¬ rmsOf (tailWindow (uncommittedOf t full_audio)) < SILENCE_THRESHOLD →
      (ChunkTracker.detect_silence rmsOf t
          (tailWindow (uncommittedOf t full_audio))).1.silence_sample_count = 0 ∧
      (SILENCE_THRESHOLD * 2 < rmsOf (tailWindow (uncommittedOf t full_audio)) →
        (ChunkTracker.detect_silence rmsOf t
            (tailWindow (uncommittedOf t full_audio))).1.speech_rms_history =
          (if 50 < (t.speech_rms_history ++
              [rmsOf (tailWindow (uncommittedOf t full_audio))]).length then
            (t.speech_rms_history ++
              [rmsOf (tailWindow (uncommittedOf t full_audio))]).tail
          else t.speech_rms_history ++
            [rmsOf (tailWindow (uncommittedOf t full_audio))]) ∧
        (ChunkTracker.detect_silence rmsOf t
            (tailWindow (uncommittedOf t full_audio))).1.average_speech_rms =
          (ChunkTracker.detect_silence rmsOf t
            (tailWindow (uncommittedOf t full_audio))).1.speech_rms_history.sum /
          ((ChunkTracker.detect_silence rmsOf t
            (tailWindow (uncommittedOf t full_audio))).1.speech_rms_history.length : ℚ)) ∧
      (¬ SILENCE_THRESHOLD * 2 < rmsOf (tailWindow (uncommittedOf t full_audio)) →
        (ChunkTracker.detect_silence rmsOf t
            (tailWindow (uncommittedOf t full_audio))).1.speech_rms_history =
          t.speech_rms_history ∧
        (ChunkTracker.detect_silence rmsOf t
            (tailWindow (uncommittedOf t full_audio))).1.average_speech_rms =
          t.average_speech_rms)) ∧
    ((ChunkTracker.detect_silence rmsOf t
        (tailWindow (uncommittedOf t full_audio))).2 = true ↔
      SILENCE_SAMPLES ≤ (ChunkTracker.detect_silence rmsOf t
        (tailWindow (uncommittedOf t full_audio))).1.silence_sample_count) ∧
    (transcribe_buffer_chunked rmsOf transcribe t full_audio sid n).1.speech_rms_history =
      (ChunkTracker.detect_silence rmsOf t
        (tailWindow (uncommittedOf t full_audio))).1.speech_rms_history ∧
    (transcribe_buffer_chunked rmsOf transcribe t full_audio sid n).1.average_speech_rms =
      (ChunkTracker.detect_silence rmsOf t
        (tailWindow (uncommittedOf t full_audio))).1.average_speech_rms := by
  refine ⟨?_, ?_, ?_, ?_, ?_, ?_, ?_⟩
  · show ((uncommittedOf t full_audio).drop _).length = _
    rw [List.length_drop]
    have hmin : min SAMPLE_RATE (uncommittedOf t full_audio).length ≤
        (uncommittedOf t full_audio).length := Nat.min_le_right _ _
    show (uncommittedOf t full_audio).length -
      ((uncommittedOf t full_audio).length -
        min SAMPLE_RATE (uncommittedOf t full_audio).length) = _
    have hsr : SAMPLE_RATE = 16000 := rfl
    omega
  · exact List.drop_suffix _ _
  · intro hs
    rw [detect_silence_silent rmsOf t _ hs]
  · intro hs
    by_cases hsp : SILENCE_THRESHOLD * 2 < rmsOf (tailWindow (uncommittedOf t full_audio))
    · rw [detect_silence_speech rmsOf t _ hs hsp]
      refine ⟨rfl, fun _ => ⟨rfl, rfl⟩, fun hc => absurd hsp hc⟩
    · rw [detect_silence_mid rmsOf t _ hs hsp]
      exact ⟨rfl, fun hc => absurd hc hsp, fun _ => ⟨rfl, rfl⟩⟩
  · exact detect_silence_flag rmsOf t _
  · exact (tbc_calib_eq rmsOf transcribe t full_audio sid n h1 h2).1
  · exact (tbc_calib_eq rmsOf transcribe t full_audio sid n h1 h2).2

theorem C7_pause_detection_witness :
    (¬ audio4000.length < MIN_REQUEST_SAMPLES) ∧
    (¬ (uncommittedOf ChunkTracker.init audio4000).length < MIN_REQUEST_SAMPLES) ∧
    ((tailWindow (uncommittedOf ChunkTracker.init audio4000)).length =
      min 16000 (uncommittedOf ChunkTracker.init audio4000).length ∧
    tailWindow (uncommittedOf ChunkTracker.init audio4000) <:+ uncommittedOf ChunkTracker.init audio4000 ∧
    (rmsLoud (tailWindow (uncommittedOf ChunkTracker.init audio4000)) < SILENCE_THRESHOLD →
      (ChunkTracker.detect_silence rmsLoud ChunkTracker.init (tailWindow (uncommittedOf ChunkTracker.init audio4000))).1 =
        { ChunkTracker.init with silence_sample_count := ChunkTracker.init.silence_sample_count +
            (tailWindow (uncommittedOf ChunkTracker.init audio4000)).length }) ∧
    (¬ rmsLoud (tailWindow (uncommittedOf ChunkTracker.init audio4000)) < SILENCE_THRESHOLD →
      (ChunkTracker.detect_silence rmsLoud ChunkTracker.init
          (tailWindow (uncommittedOf ChunkTracker.init audio4000))).1.silence_sample_count = 0 ∧
      (SILENCE_THRESHOLD * 2 < rmsLoud (tailWindow (uncommittedOf ChunkTracker.init audio4000)) →
        (ChunkTracker.detect_silence rmsLoud ChunkTracker.init
            (tailWindow (uncommittedOf ChunkTracker.init audio4000))).1.speech_rms_history =
          (if 50 < (ChunkTracker.init.speech_rms_history ++
              [rmsLoud (tailWindow (uncommittedOf ChunkTracker.init audio4000))]).length then
            (ChunkTracker.init.speech_rms_history ++
              [rmsLoud (tailWindow (uncommittedOf ChunkTracker.init audio4000))]).tail
          else ChunkTracker.init.speech_rms_history ++
            [rmsLoud (tailWindow (uncommittedOf ChunkTracker.init audio4000))]) ∧
        (ChunkTracker.detect_silence rmsLoud ChunkTracker.init
            (tailWindow (uncommittedOf ChunkTracker.init audio4000))).1.average_speech_rms =
          (ChunkTracker.detect_silence rmsLoud ChunkTracker.init
            (tailWindow (uncommittedOf ChunkTracker.init audio4000))).1.speech_rms_history.sum /
          ((ChunkTracker.detect_silence rmsLoud ChunkTracker.init
            (tailWindow (uncommittedOf ChunkTracker.init audio4000))).1.speech_rms_history.length : ℚ)) ∧
      (¬ SILENCE_THRESHOLD * 2 < rmsLoud (tailWindow (uncommittedOf ChunkTracker.init audio4000)) →
        (ChunkTracker.detect_silence rmsLoud ChunkTracker.init
            (tailWindow (uncommittedOf ChunkTracker.init audio4000))).1.speech_rms_history =
          ChunkTracker.init.speech_rms_history ∧
        (ChunkTracker.detect_silence rmsLoud ChunkTracker.init
            (tailWindow (uncommittedOf ChunkTracker.init audio4000))).1.average_speech_rms =
          ChunkTracker.init.average_speech_rms)) ∧
    ((ChunkTracker.detect_silence rmsLoud ChunkTracker.init
        (tailWindow (uncommittedOf ChunkTracker.init audio4000))).2 = true ↔
      SILENCE_SAMPLES ≤ (ChunkTracker.detect_silence rmsLoud ChunkTracker.init
        (tailWindow (uncommittedOf ChunkTracker.init audio4000))).1.silence_sample_count) ∧
    (transcribe_buffer_chunked rmsLoud trHello ChunkTracker.init audio4000 ([] : List Char) (0 : ℤ)).1.speech_rms_history =
      (ChunkTracker.detect_silence rmsLoud ChunkTracker.init
        (tailWindow (uncommittedOf ChunkTracker.init audio4000))).1.speech_rms_history ∧
    (transcribe_buffer_chunked rmsLoud trHello ChunkTracker.init audio4000 ([] : List Char) (0 : ℤ)).1.average_speech_rms =
      (ChunkTracker.detect_silence rmsLoud ChunkTracker.init
        (tailWindow (uncommittedOf ChunkTracker.init audio4000))).1.average_speech_rms) := by
  have hyp1 : ¬ audio4000.length < MIN_REQUEST_SAMPLES := by
    rw [audio4000_length]
    decide
  have hyp2 : ¬ (uncommittedOf ChunkTracker.init audio4000).length < MIN_REQUEST_SAMPLES := by
    rw [uncommittedOf_zero ChunkTracker.init audio4000 rfl, audio4000_length]
    decide
  exact ⟨hyp1, hyp2,
    C7_pause_detection rmsLoud trHello ChunkTracker.init audio4000 [] 0 hyp1 hyp2⟩

/-! ## Concrete scenario: silent 4000-sample buffer from a fresh session -/

theorem huA : uncommittedOf ChunkTracker.init audio4000 = audio4000 :=
  uncommittedOf_zero _ _ rfl

theorem h1A : ¬ audio4000.length < MIN_REQUEST_SAMPLES := by
  rw [audio4000_length]
  decide

theorem h2A : ¬ (uncommittedOf ChunkTracker.init audio4000).length < MIN_REQUEST_SAMPLES := by
  rw [huA, audio4000_length]
  decide

theorem htailA : tailWindow (uncommittedOf ChunkTracker.init audio4000) = audio4000 := by
  rw [huA]
  exact tailWindow_of_le _ (by rw [audio4000_length]; decide)

theorem hdA : ChunkTracker.detect_silence rmsSilent ChunkTracker.init
    (tailWindow (uncommittedOf ChunkTracker.init audio4000)) =
    ({ ChunkTracker.init with silence_sample_count := 4000 }, false) := by
  rw [htailA, detect_silence_silent rmsSilent ChunkTracker.init audio4000
    (by norm_num [rmsSilent, SILENCE_THRESHOLD]), audio4000_length]
  rfl

theorem hnA : ChunkTracker.is_low_volume_noise rmsSilent
    (ChunkTracker.detect_silence rmsSilent ChunkTracker.init
      (tailWindow (uncommittedOf ChunkTracker.init audio4000))).1
    (uncommittedOf ChunkTracker.init audio4000) = false := by
  rw [hdA, huA]
  simp only [ChunkTracker.is_low_volume_noise, rmsSilent]
  norm_num [SILENCE_THRESHOLD]

/-- A fresh session, a silent 4000-sample buffer, and an erroring
transcription capability: the error is surfaced, but `detect_silence` has
already added the window to the silence run. -/
theorem runC3 : stepCall rmsSilent trBoom ChunkTracker.init ⟨audio4000, [], 4000⟩ =
    ({ ChunkTracker.init with silence_sample_count := 4000 },
     SttResponse.error strBoom) := by
  show transcribe_buffer_chunked rmsSilent trBoom ChunkTracker.init audio4000 [] 4000 = _
  rw [tbc_err rmsSilent trBoom ChunkTracker.init audio4000 [] 4000 strBoom h1A h2A hnA rfl,
    hdA]

/-- Claim C3 (amended): an exception from the transcription capability is
surfaced as an error result and leaves `committed_text`, `committed_samples`
and `last_commit_sample` untouched (so the identical uncommitted span is
retried), though `silence_sample_count` and the speech-RMS calibration may
already have been updated by the pause-detection step that runs before the
transcription call. -/
theorem C3_error_keeps_committed (rmsOf : List ℚ → ℚ)
    (transcribe : List ℚ → Except (List Char) (List Char))
    (t : ChunkTracker) (full_audio : List ℚ) (sid : List Char) (n : ℤ)
    (e : List Char)
    (h1 : ¬ full_audio.length < MIN_REQUEST_SAMPLES)
    (h2 : ¬ (uncommittedOf t full_audio).length < MIN_REQUEST_SAMPLES)
    (h3 : ChunkTracker.is_low_volume_noise rmsOf
        (ChunkTracker.detect_silence rmsOf t (tailWindow (uncommittedOf t full_audio))).1
        (uncommittedOf t full_audio) = false)
    (h4 : transcribe (uncommittedOf t full_audio) = Except.error e) :
    transcribe_buffer_chunked rmsOf transcribe t full_audio sid n =
      ((ChunkTracker.detect_silence rmsOf t (tailWindow (uncommittedOf t full_audio))).1,
       SttResponse.error e) ∧
    (transcribe_buffer_chunked rmsOf transcribe t full_audio sid n).1.committed_text =
      t.committed_text ∧
    (transcribe_buffer_chunked rmsOf transcribe t full_audio sid n).1.committed_samples =
      t.committed_samples ∧
    (transcribe_buffer_chunked rmsOf transcribe t full_audio sid n).1.last_commit_sample =
      t.last_commit_sample := by
  have he := tbc_err rmsOf transcribe t full_audio sid n e h1 h2 h3 h4
  refine ⟨he, ?_, ?_, ?_⟩ <;> rw [he] <;> simp

/-- Claim C3 as stated is false: on this call the capability raises, the
call returns an error result, yet `silence_sample_count` differs from its
pre-call value (0 before, 4000 after). -/
theorem C3_counterexample :
    (stepCall rmsSilent trBoom ChunkTracker.init ⟨audio4000, [], 4000⟩).2 =
      SttResponse.error strBoom ∧
    ChunkTracker.init.silence_sample_count = 0 ∧
    (stepCall rmsSilent trBoom ChunkTracker.init
      ⟨audio4000, [], 4000⟩).1.silence_sample_count = 4000 := by
  refine ⟨?_, rfl, ?_⟩ <;> rw [runC3]

theorem C3_error_keeps_committed_witness :
    (¬ audio4000.length < MIN_REQUEST_SAMPLES) ∧
    (trBoom (uncommittedOf ChunkTracker.init audio4000) = Except.error strBoom) ∧
    (transcribe_buffer_chunked rmsSilent trBoom ChunkTracker.init audio4000 ([] : List Char) (4000 : ℤ) =
      ((ChunkTracker.detect_silence rmsSilent ChunkTracker.init (tailWindow (uncommittedOf ChunkTracker.init audio4000))).1,
       SttResponse.error strBoom) ∧
    (transcribe_buffer_chunked rmsSilent trBoom ChunkTracker.init audio4000 ([] : List Char) (4000 : ℤ)).1.committed_text =
      ChunkTracker.init.committed_text ∧
    (transcribe_buffer_chunked rmsSilent trBoom ChunkTracker.init audio4000 ([] : List Char) (4000 : ℤ)).1.committed_samples =
      ChunkTracker.init.committed_samples ∧
    (transcribe_buffer_chunked rmsSilent trBoom ChunkTracker.init audio4000 ([] : List Char) (4000 : ℤ)).1.last_commit_sample =
      ChunkTracker.init.last_commit_sample) :=
  ⟨h1A, rfl,
   C3_error_keeps_committed rmsSilent trBoom ChunkTracker.init audio4000 [] 4000 strBoom
     h1A h2A hnA rfl⟩

/-- Claim C4: when the Commit Policy fires but the transcribed text is blank
after trimming, no commit occurs: the committed text, boundary and
last-commit sample keep their prior values and the call returns
`is_final = false`. -/
theorem C4_blank_no_commit (rmsOf : List ℚ → ℚ)
    (transcribe : List ℚ → Except (List Char) (List Char))
    (t : ChunkTracker) (full_audio : List ℚ) (sid : List Char) (n : ℤ)
    (p : List Char)
    (h1 : ¬ full_audio.length < MIN_REQUEST_SAMPLES)
    (h2 : ¬ (uncommittedOf t full_audio).length < MIN_REQUEST_SAMPLES)
    (h3 : ChunkTracker.is_low_volume_noise rmsOf
        (ChunkTracker.detect_silence rmsOf t (tailWindow (uncommittedOf t full_audio))).1
        (uncommittedOf t full_audio) = false)
    (h4 : transcribe (uncommittedOf t full_audio) = Except.ok p)
    (h5 : ChunkTracker.should_commit
        (ChunkTracker.detect_silence rmsOf t (tailWindow (uncommittedOf t full_audio))).1 n
        (ChunkTracker.detect_silence rmsOf t (tailWindow (uncommittedOf t full_audio))).2 = true)
    (h6 : strip p = []) :
    transcribe_buffer_chunked rmsOf transcribe t full_audio sid n =
      ((ChunkTracker.detect_silence rmsOf t (tailWindow (uncommittedOf t full_audio))).1,
       SttResponse.success
        { committed_text := (ChunkTracker.detect_silence rmsOf t
            (tailWindow (uncommittedOf t full_audio))).1.committed_text
          partial_text := p
          is_final := false
          commit_sample := (ChunkTracker.detect_silence rmsOf t
            (tailWindow (uncommittedOf t full_audio))).1.committed_samples
          commit_reason := none
          audio_duration_ms := audioDurationMs (uncommittedOf t full_audio).length
          skipped_low_volume := false }) ∧
    (transcribe_buffer_chunked rmsOf transcribe t full_audio sid n).1.committed_text =
      t.committed_text ∧
    (transcribe_buffer_chunked rmsOf transcribe t full_audio sid n).1.committed_samples =
      t.committed_samples ∧
    (transcribe_buffer_chunked rmsOf transcribe t full_audio sid n).1.last_commit_sample =
      t.last_commit_sample := by
  have hnc : ¬ (ChunkTracker.should_commit
      (ChunkTracker.detect_silence rmsOf t (tailWindow (uncommittedOf t full_audio))).1 n
      (ChunkTracker.detect_silence rmsOf t (tailWindow (uncommittedOf t full_audio))).2 = true ∧
      strip p ≠ []) := fun hc => hc.2 h6
  have hp := tbc_no_commit rmsOf transcribe t full_audio sid n p h1 h2 h3 h4 hnc
  refine ⟨hp, ?_, ?_, ?_⟩ <;> rw [hp] <;> simp

/-! ## Concrete scenario: clear speech, blank transcription, force window -/

theorem hdB : ChunkTracker.detect_silence rmsLoud ChunkTracker.init
    (tailWindow (uncommittedOf ChunkTracker.init audio4000)) =
    ({ ChunkTracker.init with
        silence_sample_count := 0
        speech_rms_history := [0.1]
        average_speech_rms := 0.1 }, false) := by
  rw [htailA, detect_silence_speech rmsLoud ChunkTracker.init audio4000
    (by norm_num [rmsLoud, SILENCE_THRESHOLD])
    (by norm_num [rmsLoud, SILENCE_THRESHOLD])]
  simp [rmsLoud, ChunkTracker.init]

theorem hnB : ChunkTracker.is_low_volume_noise rmsLoud
    (ChunkTracker.detect_silence rmsLoud ChunkTracker.init
      (tailWindow (uncommittedOf ChunkTracker.init audio4000))).1
    (uncommittedOf ChunkTracker.init audio4000) = false := by
  rw [hdB, huA]
  simp only [ChunkTracker.is_low_volume_noise, rmsLoud]
  norm_num [SILENCE_THRESHOLD, MINIMUM_SPEECH_RMS]

theorem h5B : ChunkTracker.should_commit
    (ChunkTracker.detect_silence rmsLoud ChunkTracker.init
      (tailWindow (uncommittedOf ChunkTracker.init audio4000))).1 200000
    (ChunkTracker.detect_silence rmsLoud ChunkTracker.init
      (tailWindow (uncommittedOf ChunkTracker.init audio4000))).2 = true := by
  rw [hdB]
  decide

theorem C4_blank_no_commit_witness :
    (ChunkTracker.should_commit
      (ChunkTracker.detect_silence rmsLoud ChunkTracker.init
        (tailWindow (uncommittedOf ChunkTracker.init audio4000))).1 200000
      (ChunkTracker.detect_silence rmsLoud ChunkTracker.init
        (tailWindow (uncommittedOf ChunkTracker.init audio4000))).2 = true) ∧
    strip strBlank = [] ∧
    (transcribe_buffer_chunked rmsLoud trBlank ChunkTracker.init audio4000 ([] : List Char) (200000 : ℤ) =
      ((ChunkTracker.detect_silence rmsLoud ChunkTracker.init (tailWindow (uncommittedOf ChunkTracker.init audio4000))).1,
       SttResponse.success
        { committed_text := (ChunkTracker.detect_silence rmsLoud ChunkTracker.init
            (tailWindow (uncommittedOf ChunkTracker.init audio4000))).1.committed_text
          partial_text := strBlank
          is_final := false
          commit_sample := (ChunkTracker.detect_silence rmsLoud ChunkTracker.init
            (tailWindow (uncommittedOf ChunkTracker.init audio4000))).1.committed_samples
          commit_reason := none
          audio_duration_ms := audioDurationMs (uncommittedOf ChunkTracker.init audio4000).length
          skipped_low_volume := false }) ∧
    (transcribe_buffer_chunked rmsLoud trBlank ChunkTracker.init audio4000 ([] : List Char) (200000 : ℤ)).1.committed_text =
      ChunkTracker.init.committed_text ∧
    (transcribe_buffer_chunked rmsLoud trBlank ChunkTracker.init audio4000 ([] : List Char) (200000 : ℤ)).1.committed_samples =
      ChunkTracker.init.committed_samples ∧
    (transcribe_buffer_chunked rmsLoud trBlank ChunkTracker.init audio4000 ([] : List Char) (200000 : ℤ)).1.last_commit_sample =
      ChunkTracker.init.last_commit_sample) :=
  ⟨h5B, by decide,
   C4_blank_no_commit rmsLoud trBlank ChunkTracker.init audio4000 [] 200000 strBlank
     h1A h2A hnB rfl h5B (by decide)⟩

/-- Claim C2 (amended): for a call with an honest caller (`total_samples =
len(full_audio)`), the committed boundary inside the buffer
(`0 ≤ committed_samples < len(full_audio)`), the full audio passing the
4000-sample minimum, and `total_samples − committed_samples < 4000`, the
transcription capability is never invoked (the result is independent of
both oracles) and the response equals the prior committed state with
`is_final = false`. -/
theorem C2_small_uncommitted (rmsOf rmsOf₂ : List ℚ → ℚ)
    (transcribe transcribe₂ : List ℚ → Except (List Char) (List Char))
    (t : ChunkTracker) (full_audio : List ℚ) (sid : List Char) (n : ℤ)
    (h0 : 0 ≤ t.committed_samples)
    (hlt : t.committed_samples < (full_audio.length : ℤ))
    (htot : n = (full_audio.length : ℤ))
    (hmin : MIN_REQUEST_SAMPLES ≤ full_audio.length)
    (hsmall : n - t.committed_samples < (MIN_REQUEST_SAMPLES : ℤ)) :
    transcribe_buffer_chunked rmsOf transcribe t full_audio sid n =
      (t, SttResponse.success
        { committed_text := t.committed_text
          partial_text := []
          is_final := false
          commit_sample := t.committed_samples
          commit_reason := none
          audio_duration_ms := audioDurationMs full_audio.length
          skipped_low_volume := false }) ∧
    transcribe_buffer_chunked rmsOf₂ transcribe₂ t full_audio sid n =
      transcribe_buffer_chunked rmsOf transcribe t full_audio sid n := by
  have hu : (uncommittedOf t full_audio).length < MIN_REQUEST_SAMPLES := by
    rw [uncommittedOf, if_pos hlt, pySliceFrom, if_pos h0, List.length_drop]
    omega
  have e1 := tbc_small rmsOf transcribe t full_audio sid n (by omega) hu
  have e2 := tbc_small rmsOf₂ transcribe₂ t full_audio sid n (by omega) hu
  exact ⟨e1, e2.trans e1.symm⟩

/-- A session state whose committed boundary sits 1001 samples before the
end of a 4001-sample buffer. -/
def tW : ChunkTracker :=
  { committed_text := []
    committed_samples := 3000
    last_commit_sample := 3000
    silence_sample_count := 0
    pending_audio := none
    speech_rms_history := []
    average_speech_rms := 0.08 }

theorem C2_small_uncommitted_witness :
    (0 ≤ tW.committed_samples ∧ tW.committed_samples < (audio4001.length : ℤ) ∧
     (4001 : ℤ) = (audio4001.length : ℤ) ∧ MIN_REQUEST_SAMPLES ≤ audio4001.length ∧
     (4001 : ℤ) - tW.committed_samples < (MIN_REQUEST_SAMPLES : ℤ)) ∧
    (transcribe_buffer_chunked rmsSilent trHello tW audio4001 [] 4001 =
      (tW, SttResponse.success
        { committed_text := tW.committed_text
          partial_text := []
          is_final := false
          commit_sample := tW.committed_samples
          commit_reason := none
          audio_duration_ms := audioDurationMs audio4001.length
          skipped_low_volume := false }) ∧
     transcribe_buffer_chunked rmsLoud trBoom tW audio4001 [] 4001 =
      transcribe_buffer_chunked rmsSilent trHello tW audio4001 [] 4001) := by
  have hA : 0 ≤ tW.committed_samples := by decide
  have hB : tW.committed_samples < (audio4001.length : ℤ) := by
    rw [audio4001_length]
    decide
  have hC : (4001 : ℤ) = (audio4001.length : ℤ) := by
    rw [audio4001_length]
    norm_num
  have hD : MIN_REQUEST_SAMPLES ≤ audio4001.length := by
    rw [audio4001_length]
    decide
  have hE : (4001 : ℤ) - tW.committed_samples < (MIN_REQUEST_SAMPLES : ℤ) := by decide
  exact ⟨⟨hA, hB, hC, hD, hE⟩,
    C2_small_uncommitted rmsSilent rmsLoud trHello trBoom tW audio4001 [] 4001
      hA hB hC hD hE⟩

/-! ## Concrete scenario: committed boundary lands on the buffer end -/

def callB : SttCall := ⟨audio4000, [], 12800⟩

def trackerA : ChunkTracker :=
  { ChunkTracker.init with silence_sample_count := 4000 }

def trackerB : ChunkTracker :=
  ChunkTracker.commit { ChunkTracker.init with silence_sample_count := 8000 }
    strHello 12800

theorem runB1 : stepCall rmsSilent trHello ChunkTracker.init callB =
    (trackerA, SttResponse.success
      { committed_text := []
        partial_text := strHello
        is_final := false
        commit_sample := 0
        commit_reason := none
        audio_duration_ms := 250
        skipped_low_volume := false }) := by
  show transcribe_buffer_chunked rmsSilent trHello ChunkTracker.init audio4000 [] 12800 = _
  have hsc : ChunkTracker.should_commit
      (ChunkTracker.detect_silence rmsSilent ChunkTracker.init
        (tailWindow (uncommittedOf ChunkTracker.init audio4000))).1 12800
      (ChunkTracker.detect_silence rmsSilent ChunkTracker.init
        (tailWindow (uncommittedOf ChunkTracker.init audio4000))).2 = false := by
    rw [hdA]
    decide
  have hnc : ¬ (ChunkTracker.should_commit
      (ChunkTracker.detect_silence rmsSilent ChunkTracker.init
        (tailWindow (uncommittedOf ChunkTracker.init audio4000))).1 12800
      (ChunkTracker.detect_silence rmsSilent ChunkTracker.init
        (tailWindow (uncommittedOf ChunkTracker.init audio4000))).2 = true ∧
      strip strHello ≠ []) := by
    intro hc
    rw [hsc] at hc
    exact Bool.false_ne_true hc.1
  rw [tbc_no_commit rmsSilent trHello ChunkTracker.init audio4000 [] 12800 strHello
    h1A h2A hnA rfl hnc, hdA, huA, audio4000_length]
  rfl

theorem huB2 : uncommittedOf trackerA audio4000 = audio4000 :=
  uncommittedOf_zero _ _ rfl

theorem h2B2 : ¬ (uncommittedOf trackerA audio4000).length < MIN_REQUEST_SAMPLES := by
  rw [huB2, audio4000_length]
  decide

theorem htailB2 : tailWindow (uncommittedOf trackerA audio4000) = audio4000 := by
  rw [huB2]
  exact tailWindow_of_le _ (by rw [audio4000_length]; decide)

theorem hdB2 : ChunkTracker.detect_silence rmsSilent trackerA
    (tailWindow (uncommittedOf trackerA audio4000)) =
    ({ ChunkTracker.init with silence_sample_count := 8000 }, true) := by
  rw [htailB2, detect_silence_silent rmsSilent trackerA audio4000
    (by norm_num [rmsSilent, SILENCE_THRESHOLD]), audio4000_length]
  rfl

theorem hnB2 : ChunkTracker.is_low_volume_noise rmsSilent
    (ChunkTracker.detect_silence rmsSilent trackerA
      (tailWindow (uncommittedOf trackerA audio4000))).1
    (uncommittedOf trackerA audio4000) = false := by
  rw [hdB2, huB2]
  simp only [ChunkTracker.is_low_volume_noise, rmsSilent]
  norm_num [SILENCE_THRESHOLD]

theorem runB2 : stepCall rmsSilent trHello trackerA callB =
    (trackerB, SttResponse.success
      { committed_text := trackerB.committed_text
        partial_text := []
        is_final := true
        commit_sample := 12800
        commit_reason := some ("pause".toList)
        audio_duration_ms := 250
        skipped_low_volume := false }) := by
  show transcribe_buffer_chunked rmsSilent trHello trackerA audio4000 [] 12800 = _
  have hsc : ChunkTracker.should_commit
      (ChunkTracker.detect_silence rmsSilent trackerA
        (tailWindow (uncommittedOf trackerA audio4000))).1 12800
      (ChunkTracker.detect_silence rmsSilent trackerA
        (tailWindow (uncommittedOf trackerA audio4000))).2 = true := by
    rw [hdB2]
    decide
  rw [tbc_commit rmsSilent trHello trackerA audio4000 [] 12800 strHello
    h1A h2B2 hnB2 rfl hsc (by decide), hdB2, huB2, audio4000_length]
  rfl

theorem trackerB_committed : trackerB.committed_samples = 12800 :=
  commit_committed_samples _ _ _

theorem huB3 : uncommittedOf trackerB audio4000 = audio4000 :=
  uncommittedOf_ge _ _ (by rw [audio4000_length, trackerB_committed]; decide)

theorem h2B3 : ¬ (uncommittedOf trackerB audio4000).length < MIN_REQUEST_SAMPLES := by
  rw [huB3, audio4000_length]
  decide

theorem htailB3 : tailWindow (uncommittedOf trackerB audio4000) = audio4000 := by
  rw [huB3]
  exact tailWindow_of_le _ (by rw [audio4000_length]; decide)

theorem hdB3 : ChunkTracker.detect_silence rmsSilent trackerB
    (tailWindow (uncommittedOf trackerB audio4000)) =
    ({ trackerB with silence_sample_count := 4000 }, false) := by
  rw [htailB3, detect_silence_silent rmsSilent trackerB audio4000
    (by norm_num [rmsSilent, SILENCE_THRESHOLD]), audio4000_length]
  rfl

theorem hnB3 : ChunkTracker.is_low_volume_noise rmsSilent
    (ChunkTracker.detect_silence rmsSilent trackerB
      (tailWindow (uncommittedOf trackerB audio4000))).1
    (uncommittedOf trackerB audio4000) = false := by
  rw [hdB3, huB3]
  simp only [ChunkTracker.is_low_volume_noise, rmsSilent]
  norm_num [SILENCE_THRESHOLD]

theorem runB3 : stepCall rmsSilent trHello trackerB callB =
    ({ trackerB with silence_sample_count := 4000 }, SttResponse.success
      { committed_text := trackerB.committed_text
        partial_text := strHello
        is_final := false
        commit_sample := 12800
        commit_reason := none
        audio_duration_ms := 250
        skipped_low_volume := false }) := by
  show transcribe_buffer_chunked rmsSilent trHello trackerB audio4000 [] 12800 = _
  have hsc : ChunkTracker.should_commit
      (ChunkTracker.detect_silence rmsSilent trackerB
        (tailWindow (uncommittedOf trackerB audio4000))).1 12800
      (ChunkTracker.detect_silence rmsSilent trackerB
        (tailWindow (uncommittedOf trackerB audio4000))).2 = false := by
    rw [hdB3]
    decide
  have hnc : ¬ (ChunkTracker.should_commit
      (ChunkTracker.detect_silence rmsSilent trackerB
        (tailWindow (uncommittedOf trackerB audio4000))).1 12800
      (ChunkTracker.detect_silence rmsSilent trackerB
        (tailWindow (uncommittedOf trackerB audio4000))).2 = true ∧
      strip strHello ≠ []) := by
    intro hc
    rw [hsc] at hc
    exact Bool.false_ne_true hc.1
  rw [tbc_no_commit rmsSilent trHello trackerB audio4000 [] 12800 strHello
    h1A h2B3 hnB3 rfl hnc, hdB3, huB3, audio4000_length]
  rfl

/-- Claim C2 as stated is false: `trackerB` is reached from a fresh session
by two real calls; on the next call `total_samples − committed_samples = 0 <
4000` and the full audio passes the 4000-sample minimum, yet the capability
IS invoked (its output `strHello` comes back as a non-empty
`partial_text`), because the committed boundary sits at the buffer end and
the source then falls back to the whole buffer. -/
theorem C2_counterexample :
    runCalls rmsSilent trHello ChunkTracker.init [callB, callB] = trackerB ∧
    trackerB.committed_samples = 12800 ∧
    callB.total_samples - trackerB.committed_samples < 4000 ∧
    ¬ callB.full_audio.length < 4000 ∧
    (stepCall rmsSilent trHello trackerB callB).2 =
      SttResponse.success
        { committed_text := trackerB.committed_text
          partial_text := strHello
          is_final := false
          commit_sample := 12800
          commit_reason := none
          audio_duration_ms := 250
          skipped_low_volume := false } ∧
    strHello ≠ [] := by
  refine ⟨?_, trackerB_committed, ?_, ?_, ?_, by decide⟩
  · simp only [runCalls, runB1]
    rw [runB2]
  · rw [trackerB_committed]
    decide
  · show ¬ audio4000.length < 4000
    rw [audio4000_length]
    decide
  · rw [runB3]

/-- Claim C6 (amended): `reset_session` zeroes `committed_text` and
`committed_samples`; a subsequent call behaves identically to a brand-new
session PROVIDED the retained speech-energy calibration equals a fresh
tracker's (empty history, baseline 0.08).  In general the calibration is
preserved across resets and can change low-volume-noise classification. -/
theorem C6_reset_behaves_fresh (t : ChunkTracker) (rmsOf : List ℚ → ℚ)
    (transcribe : List ℚ → Except (List Char) (List Char))
    (full_audio : List ℚ) (sid : List Char) (n : ℤ)
    (hh : t.speech_rms_history = []) (ha : t.average_speech_rms = 0.08) :
    t.reset.committed_text = [] ∧ t.reset.committed_samples = 0 ∧
    t.reset = ChunkTracker.init ∧
    transcribe_buffer_chunked rmsOf transcribe t.reset full_audio sid n =
      transcribe_buffer_chunked rmsOf transcribe ChunkTracker.init full_audio sid n := by
  have he : t.reset = ChunkTracker.init := by
    simp [ChunkTracker.reset, ChunkTracker.init, hh, ha]
  exact ⟨rfl, rfl, he, by rw [he]⟩

theorem C6_reset_behaves_fresh_witness :
    (ChunkTracker.init.speech_rms_history = [] ∧
     ChunkTracker.init.average_speech_rms = 0.08) ∧
    (ChunkTracker.init.reset.committed_text = [] ∧
     ChunkTracker.init.reset.committed_samples = 0 ∧
     ChunkTracker.init.reset = ChunkTracker.init ∧
     transcribe_buffer_chunked rmsSilent trHello ChunkTracker.init.reset audio4000 [] 4000 =
       transcribe_buffer_chunked rmsSilent trHello ChunkTracker.init audio4000 [] 4000) :=
  ⟨⟨rfl, rfl⟩,
   C6_reset_behaves_fresh ChunkTracker.init rmsSilent trHello audio4000 [] 4000 rfl rfl⟩

/-! ## Concrete scenario: calibration retained across reset -/

/-- The measured RMS: clear speech (0.3) on the first, 4000-sample buffer,
soft speech (0.05) on the later, 4001-sample buffer. -/
def rmsC6 : List ℚ → ℚ := fun l => if l.length = 4000 then 0.3 else 0.05

theorem rmsC6_4000 : rmsC6 audio4000 = 0.3 := by
  simp [rmsC6, audio4000_length]

theorem rmsC6_4001 : rmsC6 audio4001 = 0.05 := by
  simp [rmsC6, audio4001_length]

def trackerP : ChunkTracker :=
  { committed_text := []
    committed_samples := 0
    last_commit_sample := 0
    silence_sample_count := 0
    pending_audio := none
    speech_rms_history := [0.3]
    average_speech_rms := 0.3 }

def trackerP2 : ChunkTracker :=
  { committed_text := []
    committed_samples := 0
    last_commit_sample := 0
    silence_sample_count := 0
    pending_audio := none
    speech_rms_history := [0.3, 0.05]
    average_speech_rms := 0.175 }

def trackerQ : ChunkTracker :=
  { committed_text := []
    committed_samples := 0
    last_commit_sample := 0
    silence_sample_count := 0
    pending_audio := none
    speech_rms_history := [0.05]
    average_speech_rms := 0.05 }

theorem hdP : ChunkTracker.detect_silence rmsC6 ChunkTracker.init
    (tailWindow (uncommittedOf ChunkTracker.init audio4000)) = (trackerP, false) := by
  rw [htailA, detect_silence_speech rmsC6 ChunkTracker.init audio4000
    (by rw [rmsC6_4000]; norm_num [SILENCE_THRESHOLD])
    (by rw [rmsC6_4000]; norm_num [SILENCE_THRESHOLD]), rmsC6_4000]
  norm_num [ChunkTracker.init, trackerP]

theorem hnP : ChunkTracker.is_low_volume_noise rmsC6
    (ChunkTracker.detect_silence rmsC6 ChunkTracker.init
      (tailWindow (uncommittedOf ChunkTracker.init audio4000))).1
    (uncommittedOf ChunkTracker.init audio4000) = false := by
  rw [hdP, huA]
  simp only [ChunkTracker.is_low_volume_noise, rmsC6_4000]
  norm_num [SILENCE_THRESHOLD, MINIMUM_SPEECH_RMS, trackerP]

theorem runP : stepCall rmsC6 trHello ChunkTracker.init ⟨audio4000, [], 4000⟩ =
    (trackerP, SttResponse.success
      { committed_text := []
        partial_text := strHello
        is_final := false
        commit_sample := 0
        commit_reason := none
        audio_duration_ms := 250
        skipped_low_volume := false }) := by
  show transcribe_buffer_chunked rmsC6 trHello ChunkTracker.init audio4000 [] 4000 = _
  have hsc : ChunkTracker.should_commit
      (ChunkTracker.detect_silence rmsC6 ChunkTracker.init
        (tailWindow (uncommittedOf ChunkTracker.init audio4000))).1 4000
      (ChunkTracker.detect_silence rmsC6 ChunkTracker.init
        (tailWindow (uncommittedOf ChunkTracker.init audio4000))).2 = false := by
    rw [hdP]
    decide
  have hnc : ¬ (ChunkTracker.should_commit
      (ChunkTracker.detect_silence rmsC6 ChunkTracker.init
        (tailWindow (uncommittedOf ChunkTracker.init audio4000))).1 4000
      (ChunkTracker.detect_silence rmsC6 ChunkTracker.init
        (tailWindow (uncommittedOf ChunkTracker.init audio4000))).2 = true ∧
      strip strHello ≠ []) := by
    intro hc
    rw [hsc] at hc
    exact Bool.false_ne_true hc.1
  rw [tbc_no_commit rmsC6 trHello ChunkTracker.init audio4000 [] 4000 strHello
    h1A h2A hnP rfl hnc, hdP, huA, audio4000_length]
  rfl

theorem hresetP : trackerP.reset = trackerP := by
  simp [ChunkTracker.reset, trackerP]

theorem huQ : uncommittedOf trackerP audio4001 = audio4001 :=
  uncommittedOf_zero _ _ rfl

theorem h1Q : ¬ audio4001.length < MIN_REQUEST_SAMPLES := by
  rw [audio4001_length]
  decide

theorem h2Q : ¬ (uncommittedOf trackerP audio4001).length < MIN_REQUEST_SAMPLES := by
  rw [huQ, audio4001_length]
  decide

theorem htailQ : tailWindow (uncommittedOf trackerP audio4001) = audio4001 := by
  rw [huQ]
  exact tailWindow_of_le _ (by rw [audio4001_length]; decide)

theorem hdQ : ChunkTracker.detect_silence rmsC6 trackerP
    (tailWindow (uncommittedOf trackerP audio4001)) = (trackerP2, false) := by
  rw [htailQ, detect_silence_speech rmsC6 trackerP audio4001
    (by rw [rmsC6_4001]; norm_num [SILENCE_THRESHOLD])
    (by rw [rmsC6_4001]; norm_num [SILENCE_THRESHOLD]), rmsC6_4001]
  norm_num [trackerP, trackerP2]

theorem hnQ : ChunkTracker.is_low_volume_noise rmsC6
    (ChunkTracker.detect_silence rmsC6 trackerP
      (tailWindow (uncommittedOf trackerP audio4001))).1
    (uncommittedOf trackerP audio4001) = true := by
  rw [hdQ, huQ]
  simp only [ChunkTracker.is_low_volume_noise, rmsC6_4001]
  norm_num [SILENCE_THRESHOLD, MINIMUM_SPEECH_RMS, trackerP2]

theorem runQ1 : stepCall rmsC6 trHello trackerP ⟨audio4001, [], 4001⟩ =
    (trackerP2, SttResponse.success
      { committed_text := []
        partial_text := []
        is_final := false
        commit_sample := 0
        commit_reason := none
        audio_duration_ms := 250
        skipped_low_volume := true }) := by
  show transcribe_buffer_chunked rmsC6 trHello trackerP audio4001 [] 4001 = _
  rw [tbc_noise rmsC6 trHello trackerP audio4001 [] 4001 h1Q h2Q hnQ, hdQ,
    audio4001_length]
  rfl

theorem htailQ0 : tailWindow (uncommittedOf ChunkTracker.init audio4001) = audio4001 := by
  rw [uncommittedOf_zero ChunkTracker.init audio4001 rfl]
  exact tailWindow_of_le _ (by rw [audio4001_length]; decide)

theorem h2Q0 : ¬ (uncommittedOf ChunkTracker.init audio4001).length < MIN_REQUEST_SAMPLES := by
  rw [uncommittedOf_zero ChunkTracker.init audio4001 rfl, audio4001_length]
  decide

theorem hdQ0 : ChunkTracker.detect_silence rmsC6 ChunkTracker.init
    (tailWindow (uncommittedOf ChunkTracker.init audio4001)) = (trackerQ, false) := by
  rw [htailQ0, detect_silence_speech rmsC6 ChunkTracker.init audio4001
    (by rw [rmsC6_4001]; norm_num [SILENCE_THRESHOLD])
    (by rw [rmsC6_4001]; norm_num [SILENCE_THRESHOLD]), rmsC6_4001]
  norm_num [ChunkTracker.init, trackerQ]

theorem hnQ0 : ChunkTracker.is_low_volume_noise rmsC6
    (ChunkTracker.detect_silence rmsC6 ChunkTracker.init
      (tailWindow (uncommittedOf ChunkTracker.init audio4001))).1
    (uncommittedOf ChunkTracker.init audio4001) = false := by
  rw [hdQ0, uncommittedOf_zero ChunkTracker.init audio4001 rfl]
  simp only [ChunkTracker.is_low_volume_noise, rmsC6_4001]
  norm_num [SILENCE_THRESHOLD, MINIMUM_SPEECH_RMS, trackerQ]

theorem runQ2 : stepCall rmsC6 trHello ChunkTracker.init ⟨audio4001, [], 4001⟩ =
    (trackerQ, SttResponse.success
      { committed_text := []
        partial_text := strHello
        is_final := false
        commit_sample := 0
        commit_reason := none
        audio_duration_ms := 250
        skipped_low_volume := false }) := by
  show transcribe_buffer_chunked rmsC6 trHello ChunkTracker.init audio4001 [] 4001 = _
  have hsc : ChunkTracker.should_commit
      (ChunkTracker.detect_silence rmsC6 ChunkTracker.init
        (tailWindow (uncommittedOf ChunkTracker.init audio4001))).1 4001
      (ChunkTracker.detect_silence rmsC6 ChunkTracker.init
        (tailWindow (uncommittedOf ChunkTracker.init audio4001))).2 = false := by
    rw [hdQ0]
    decide
  have hnc : ¬ (ChunkTracker.should_commit
      (ChunkTracker.detect_silence rmsC6 ChunkTracker.init
        (tailWindow (uncommittedOf ChunkTracker.init audio4001))).1 4001
      (ChunkTracker.detect_silence rmsC6 ChunkTracker.init
        (tailWindow (uncommittedOf ChunkTracker.init audio4001))).2 = true ∧
      strip strHello ≠ []) := by
    intro hc
    rw [hsc] at hc
    exact Bool.false_ne_true hc.1
  rw [tbc_no_commit rmsC6 trHello ChunkTracker.init audio4001 [] 4001 strHello
    h1Q h2Q0 hnQ0 rfl hnc, hdQ0, uncommittedOf_zero ChunkTracker.init audio4001 rfl,
    audio4001_length]
  rfl

/-- Claim C6 as stated is false: `trackerP` is reached from a fresh session
by one real call (clear speech at rms 0.3 calibrates the baseline); after
`reset`, the same soft-speech call (rms 0.05) is skipped as low-volume noise,
while a brand-new session transcribes it — so the post-reset call does NOT
behave identically to a brand-new session. -/
theorem C6_counterexample :
    (stepCall rmsC6 trHello ChunkTracker.init ⟨audio4000, [], 4000⟩).1 = trackerP ∧
    (stepCall rmsC6 trHello trackerP.reset ⟨audio4001, [], 4001⟩).2 ≠
      (stepCall rmsC6 trHello ChunkTracker.init ⟨audio4001, [], 4001⟩).2 := by
  refine ⟨by rw [runP], ?_⟩
  rw [hresetP, runQ1, runQ2]
  decide

/-- Claim C8 (amended): when the uncommitted span (at least 4000 samples) is
classified low-volume noise — rms above the 0.015 silence threshold but
below the 0.025 floor, or below 0.4 × the speech-energy baseline, evaluated
AFTER the pause-detection step — transcription is skipped entirely (the
result is independent of the capability) and the response returns the
unchanged committed state with `skipped_low_volume = true`; the committed
fields are untouched, but the pause-detection step has already run, so
silence-run and calibration updates from it may occur on such a call. -/
theorem C8_noise_skip (rmsOf : List ℚ → ℚ)
    (transcribe transcribe₂ : List ℚ → Except (List Char) (List Char))
    (t : ChunkTracker) (full_audio : List ℚ) (sid : List Char) (n : ℤ)
    (h1 : ¬ full_audio.length < MIN_REQUEST_SAMPLES)
    (h2 : ¬ (uncommittedOf t full_audio).length < MIN_REQUEST_SAMPLES)
    (h3 : ChunkTracker.is_low_volume_noise rmsOf
        (ChunkTracker.detect_silence rmsOf t (tailWindow (uncommittedOf t full_audio))).1
        (uncommittedOf t full_audio) = true) :
    transcribe_buffer_chunked rmsOf transcribe t full_audio sid n =
      ((ChunkTracker.detect_silence rmsOf t (tailWindow (uncommittedOf t full_audio))).1,
       SttResponse.success
        { committed_text := (ChunkTracker.detect_silence rmsOf t
            (tailWindow (uncommittedOf t full_audio))).1.committed_text
          partial_text := []
          is_final := false
          commit_sample := (ChunkTracker.detect_silence rmsOf t
            (tailWindow (uncommittedOf t full_audio))).1.committed_samples
          commit_reason := none
          audio_duration_ms := audioDurationMs full_audio.length
          skipped_low_volume := true }) ∧
    (ChunkTracker.detect_silence rmsOf t
      (tailWindow (uncommittedOf t full_audio))).1.committed_text = t.committed_text ∧
    (ChunkTracker.detect_silence rmsOf t
      (tailWindow (uncommittedOf t full_audio))).1.committed_samples = t.committed_samples ∧
    (ChunkTracker.detect_silence rmsOf t
      (tailWindow (uncommittedOf t full_audio))).1.last_commit_sample =
      t.last_commit_sample ∧
    transcribe_buffer_chunked rmsOf transcribe₂ t full_audio sid n =
      transcribe_buffer_chunked rmsOf transcribe t full_audio sid n := by
  have e1 := tbc_noise rmsOf transcribe t full_audio sid n h1 h2 h3
  have e2 := tbc_noise rmsOf transcribe₂ t full_audio sid n h1 h2 h3
  exact ⟨e1, detect_silence_committed_text rmsOf t _,
    detect_silence_committed_samples rmsOf t _,
    detect_silence_last_commit rmsOf t _, e2.trans e1.symm⟩

/-! ## Concrete scenario: low-volume noise after a silent stretch -/

/-- The measured RMS: silence (0.01) on the 4000-sample buffer, low-volume
noise (0.02) on the 4001-sample buffer. -/
def rmsC8 : List ℚ → ℚ := fun l => if l.length = 4000 then 0.01 else 0.02

theorem rmsC8_4000 : rmsC8 audio4000 = 0.01 := by
  simp [rmsC8, audio4000_length]

theorem rmsC8_4001 : rmsC8 audio4001 = 0.02 := by
  simp [rmsC8, audio4001_length]

theorem hdR0 : ChunkTracker.detect_silence rmsC8 ChunkTracker.init
    (tailWindow (uncommittedOf ChunkTracker.init audio4001)) =
    (ChunkTracker.init, false) := by
  rw [htailQ0, detect_silence_mid rmsC8 ChunkTracker.init audio4001
    (by rw [rmsC8_4001]; norm_num [SILENCE_THRESHOLD])
    (by rw [rmsC8_4001]; norm_num [SILENCE_THRESHOLD])]
  rfl

theorem hnR0 : ChunkTracker.is_low_volume_noise rmsC8
    (ChunkTracker.detect_silence rmsC8 ChunkTracker.init
      (tailWindow (uncommittedOf ChunkTracker.init audio4001))).1
    (uncommittedOf ChunkTracker.init audio4001) = true := by
  rw [hdR0, uncommittedOf_zero ChunkTracker.init audio4001 rfl]
  simp only [ChunkTracker.is_low_volume_noise, rmsC8_4001]
  norm_num [SILENCE_THRESHOLD, MINIMUM_SPEECH_RMS, ChunkTracker.init]

theorem hdR1 : ChunkTracker.detect_silence rmsC8 ChunkTracker.init
    (tailWindow (uncommittedOf ChunkTracker.init audio4000)) = (trackerA, false) := by
  rw [htailA, detect_silence_silent rmsC8 ChunkTracker.init audio4000
    (by rw [rmsC8_4000]; norm_num [SILENCE_THRESHOLD]), audio4000_length]
  rfl

theorem hnR1 : ChunkTracker.is_low_volume_noise rmsC8
    (ChunkTracker.detect_silence rmsC8 ChunkTracker.init
      (tailWindow (uncommittedOf ChunkTracker.init audio4000))).1
    (uncommittedOf ChunkTracker.init audio4000) = false := by
  rw [hdR1, huA]
  simp only [ChunkTracker.is_low_volume_noise, rmsC8_4000]
  norm_num [SILENCE_THRESHOLD]

theorem runR1 : stepCall rmsC8 trHello ChunkTracker.init ⟨audio4000, [], 4000⟩ =
    (trackerA, SttResponse.success
      { committed_text := []
        partial_text := strHello
        is_final := false
        commit_sample := 0
        commit_reason := none
        audio_duration_ms := 250
        skipped_low_volume := false }) := by
  show transcribe_buffer_chunked rmsC8 trHello ChunkTracker.init audio4000 [] 4000 = _
  have hsc : ChunkTracker.should_commit
      (ChunkTracker.detect_silence rmsC8 ChunkTracker.init
        (tailWindow (uncommittedOf ChunkTracker.init audio4000))).1 4000
      (ChunkTracker.detect_silence rmsC8 ChunkTracker.init
        (tailWindow (uncommittedOf ChunkTracker.init audio4000))).2 = false := by
    rw [hdR1]
    decide
  have hnc : ¬ (ChunkTracker.should_commit
      (ChunkTracker.detect_silence rmsC8 ChunkTracker.init
        (tailWindow (uncommittedOf ChunkTracker.init audio4000))).1 4000
      (ChunkTracker.detect_silence rmsC8 ChunkTracker.init
        (tailWindow (uncommittedOf ChunkTracker.init audio4000))).2 = true ∧
      strip strHello ≠ []) := by
    intro hc
    rw [hsc] at hc
    exact Bool.false_ne_true hc.1
  rw [tbc_no_commit rmsC8 trHello ChunkTracker.init audio4000 [] 4000 strHello
    h1A h2A hnR1 rfl hnc, hdR1, huA, audio4000_length]
  rfl

theorem huR2 : uncommittedOf trackerA audio4001 = audio4001 :=
  uncommittedOf_zero _ _ rfl

theorem h2R2 : ¬ (uncommittedOf trackerA audio4001).length < MIN_REQUEST_SAMPLES := by
  rw [huR2, audio4001_length]
  decide

theorem htailR2 : tailWindow (uncommittedOf trackerA audio4001) = audio4001 := by
  rw [huR2]
  exact tailWindow_of_le _ (by rw [audio4001_length]; decide)

theorem hdR2 : ChunkTracker.detect_silence rmsC8 trackerA
    (tailWindow (uncommittedOf trackerA audio4001)) = (ChunkTracker.init, false) := by
  rw [htailR2, detect_silence_mid rmsC8 trackerA audio4001
    (by rw [rmsC8_4001]; norm_num [SILENCE_THRESHOLD])
    (by rw [rmsC8_4001]; norm_num [SILENCE_THRESHOLD])]
  rfl

theorem hnR2 : ChunkTracker.is_low_volume_noise rmsC8
    (ChunkTracker.detect_silence rmsC8 trackerA
      (tailWindow (uncommittedOf trackerA audio4001))).1
    (uncommittedOf trackerA audio4001) = true := by
  rw [hdR2, huR2]
  simp only [ChunkTracker.is_low_volume_noise, rmsC8_4001]
  norm_num [SILENCE_THRESHOLD, MINIMUM_SPEECH_RMS, ChunkTracker.init]

theorem runR2 : stepCall rmsC8 trHello trackerA ⟨audio4001, [], 4001⟩ =
    (ChunkTracker.init, SttResponse.success
      { committed_text := []
        partial_text := []
        is_final := false
        commit_sample := 0
        commit_reason := none
        audio_duration_ms := 250
        skipped_low_volume := true }) := by
  show transcribe_buffer_chunked rmsC8 trHello trackerA audio4001 [] 4001 = _
  rw [tbc_noise rmsC8 trHello trackerA audio4001 [] 4001 h1Q h2R2 hnR2, hdR2,
    audio4001_length]
  rfl

/-- Claim C8 as stated is false: `trackerA` (with a 4000-sample silence run)
is reached from a fresh session by one real call; the next call is
classified low-volume noise and skipped with `skipped_low_volume = true`,
yet a silence-run update DOES occur on that call: the run drops from 4000
to 0 (the pause-detection step ran before the noise check). -/
theorem C8_counterexample :
    (stepCall rmsC8 trHello ChunkTracker.init ⟨audio4000, [], 4000⟩).1 = trackerA ∧
    trackerA.silence_sample_count = 4000 ∧
    (stepCall rmsC8 trHello trackerA ⟨audio4001, [], 4001⟩).2 =
      SttResponse.success
        { committed_text := []
          partial_text := []
          is_final := false
          commit_sample := 0
          commit_reason := none
          audio_duration_ms := 250
          skipped_low_volume := true } ∧
    (stepCall rmsC8 trHello trackerA ⟨audio4001, [], 4001⟩).1.silence_sample_count = 0 := by
  refine ⟨by rw [runR1], rfl, by rw [runR2], by rw [runR2]; rfl⟩

theorem C8_noise_skip_witness :
    (ChunkTracker.is_low_volume_noise rmsC8
      (ChunkTracker.detect_silence rmsC8 ChunkTracker.init
        (tailWindow (uncommittedOf ChunkTracker.init audio4001))).1
      (uncommittedOf ChunkTracker.init audio4001) = true) ∧
    (transcribe_buffer_chunked rmsC8 trHello ChunkTracker.init audio4001 ([] : List Char) (4001 : ℤ) =
      ((ChunkTracker.detect_silence rmsC8 ChunkTracker.init (tailWindow (uncommittedOf ChunkTracker.init audio4001))).1,
       SttResponse.success
        { committed_text := (ChunkTracker.detect_silence rmsC8 ChunkTracker.init
            (tailWindow (uncommittedOf ChunkTracker.init audio4001))).1.committed_text
          partial_text := []
          is_final := false
          commit_sample := (ChunkTracker.detect_silence rmsC8 ChunkTracker.init
            (tailWindow (uncommittedOf ChunkTracker.init audio4001))).1.committed_samples
          commit_reason := none
          audio_duration_ms := audioDurationMs audio4001.length
          skipped_low_volume := true }) ∧
    (ChunkTracker.detect_silence rmsC8 ChunkTracker.init
      (tailWindow (uncommittedOf ChunkTracker.init audio4001))).1.committed_text = ChunkTracker.init.committed_text ∧
    (ChunkTracker.detect_silence rmsC8 ChunkTracker.init
      (tailWindow (uncommittedOf ChunkTracker.init audio4001))).1.committed_samples = ChunkTracker.init.committed_samples ∧
    (ChunkTracker.detect_silence rmsC8 ChunkTracker.init
      (tailWindow (uncommittedOf ChunkTracker.init audio4001))).1.last_commit_sample =
      ChunkTracker.init.last_commit_sample ∧
    transcribe_buffer_chunked rmsC8 trBoom ChunkTracker.init audio4001 ([] : List Char) (4001 : ℤ) =
      transcribe_buffer_chunked rmsC8 trHello ChunkTracker.init audio4001 ([] : List Char) (4001 : ℤ)) :=
  ⟨hnR0,
   C8_noise_skip rmsC8 trHello trBoom ChunkTracker.init audio4001 [] 4001
     h1Q h2Q0 hnR0⟩
